import Mathlib

/-!
Verification development for the `scrs` repository (Android device streaming +
LLM-driven agent). Rust sources are shallowly embedded as executable Lean
definitions; machine integers are modelled as `Nat` with explicit `% 2^32`
where the source performs an `as u32` cast, and explicit clamping where a
float-to-int cast saturates. Fallible code returns `Except`/`Option`.
-/

namespace Scrs

/-! ## JSON fragment used by the do-parameter extraction

Models the fragment of `serde_json::Value` that flows through
`parse_do_params` / `from_parsed` / `convert_action_params` in
`src/agent/actions/base.rs` and `src/agent/executor/handler.rs`:
string values, unsigned numbers (u64 range), arrays of unsigned numbers
(the only arrays those functions create or read), and booleans. -/
inductive Json where
  | str (s : String)
  | num (n : Nat)
  | arr (ns : List Nat)
  | jbool (b : Bool)
deriving DecidableEq, Repr

/-- `Value::as_u64`. -/
def Json.as_u64 : Json → Option Nat
  | .num n => some n
  | _ => none

/-- `Value::as_array` (restricted to the numeric arrays this code path builds). -/
def Json.as_array : Json → Option (List Nat)
  | .arr ns => some ns
  | _ => none

/-- `Value::as_str`. -/
def Json.as_str : Json → Option String
  | .str s => some s
  | _ => none

/-- `Value::as_bool`. -/
def Json.as_bool : Json → Option Bool
  | .jbool b => some b
  | _ => none

/-- A `serde_json::Map<String, Value>` as an association list; insertion
replaces an existing binding for the same key (map semantics). -/
abbrev Params := List (String × Json)

/-- `map.get(key)`. -/
def getParam (ps : Params) (k : String) : Option Json :=
  (ps.find? (fun p => p.1 = k)).map (fun p => p.2)

/-- `map.contains_key(key)`. -/
def containsParam (ps : Params) (k : String) : Bool :=
  (getParam ps k).isSome

/-- `map.insert(key, value)` — replaces an existing binding. -/
def insertParam (ps : Params) (k : String) (v : Json) : Params :=
  match ps with
  | [] => [(k, v)]
  | p :: rest =>
      if p.1 = k then (k, v) :: rest
      else p :: insertParam rest k v

/-- `map.remove(key)` — drops the binding, returning the removed value. -/
def removeParam (ps : Params) (k : String) : Option Json × Params :=
  match ps with
  | [] => (none, [])
  | p :: rest =>
      if p.1 = k then (some p.2, rest)
      else
        let (v, rest2) := removeParam rest k
        (v, p :: rest2)

/-! ## Action data model (`src/agent/actions/*.rs`) -/

/-- `KeyCode` from `src/agent/actions/input.rs`. -/
inductive KeyCode where
  | enter | escape | delete | backspace | tab | home | back
  | volumeUp | volumeDown | power | camera
deriving DecidableEq, Repr

/-- `KeyCode::to_android_keycode`. -/
def KeyCode.to_android_keycode : KeyCode → Nat
  | .enter => 66
  | .escape => 111
  | .delete => 67
  | .backspace => 67
  | .tab => 61
  | .home => 3
  | .back => 4
  | .volumeUp => 24
  | .volumeDown => 25
  | .power => 26
  | .camera => 27

/-- `ScrollDirection` from `src/agent/actions/swipe.rs`. -/
inductive ScrollDirection where
  | up | down | left | right
deriving DecidableEq, Repr

structure TapAction where
  x : Nat
  y : Nat
  description : Option String
deriving DecidableEq, Repr

structure LongPressAction where
  x : Nat
  y : Nat
  duration_ms : Nat
  description : Option String
deriving DecidableEq, Repr

structure DoubleTapAction where
  x : Nat
  y : Nat
  description : Option String
deriving DecidableEq, Repr

structure SwipeAction where
  start_x : Nat
  start_y : Nat
  end_x : Nat
  end_y : Nat
  duration_ms : Nat
  description : Option String
deriving DecidableEq, Repr

structure ScrollAction where
  direction : ScrollDirection
  distance_pct : Nat
  duration_ms : Nat
  description : Option String
deriving DecidableEq, Repr

structure TypeAction where
  text : String
  description : Option String
deriving DecidableEq, Repr

structure PressKeyAction where
  keycode : KeyCode
  description : Option String
deriving DecidableEq, Repr

structure BackAction where
  description : Option String
deriving DecidableEq, Repr

structure HomeAction where
  description : Option String
deriving DecidableEq, Repr

structure RecentAction where
  description : Option String
deriving DecidableEq, Repr

structure NotificationAction where
  description : Option String
deriving DecidableEq, Repr

structure LaunchAction where
  package : String
  activity : Option String
  description : Option String
deriving DecidableEq, Repr

structure WaitAction where
  duration_ms : Nat
  reason : Option String
deriving DecidableEq, Repr

structure ScreenshotAction where
  description : Option String
deriving DecidableEq, Repr

structure FinishAction where
  result : String
  success : Bool
deriving DecidableEq, Repr

/-- `ActionEnum` from `src/agent/actions/base.rs`. -/
inductive ActionEnum where
  | tap (a : TapAction)
  | long_press (a : LongPressAction)
  | double_tap (a : DoubleTapAction)
  | swipe (a : SwipeAction)
  | scroll (a : ScrollAction)
  | typeText (a : TypeAction)
  | press_key (a : PressKeyAction)
  | back (a : BackAction)
  | home (a : HomeAction)
  | recent (a : RecentAction)
  | notification (a : NotificationAction)
  | launch (a : LaunchAction)
  | wait (a : WaitAction)
  | screenshot (a : ScreenshotAction)
  | finish (a : FinishAction)
deriving DecidableEq, Repr

/-- `ActionEnum::action_type`. -/
def ActionEnum.action_type : ActionEnum → String
  | .tap _ => "tap"
  | .long_press _ => "long_press"
  | .double_tap _ => "double_tap"
  | .swipe _ => "swipe"
  | .scroll _ => "scroll"
  | .typeText _ => "type"
  | .press_key _ => "press_key"
  | .back _ => "back"
  | .home _ => "home"
  | .recent _ => "recent"
  | .notification _ => "notification"
  | .launch _ => "launch"
  | .wait _ => "wait"
  | .screenshot _ => "screenshot"
  | .finish _ => "finish"

/-- `ActionError` from `src/agent/core/traits.rs`. -/
inductive ActionError where
  | invalidParameters (msg : String)
  | outOfBounds (x y : Nat)
  | invalidText (msg : String)
  | durationTooShort (d : Nat)
  | durationTooLong (d : Nat)
deriving DecidableEq, Repr

/-- The `thiserror` display strings of `ActionError`. -/
def ActionError.message : ActionError → String
  | .invalidParameters m => "无效的参数: " ++ m
  | .outOfBounds x y => "坐标超出边界: (" ++ toString x ++ ", " ++ toString y ++ ")"
  | .invalidText m => "文本包含无效字符: " ++ m
  | .durationTooShort d => "持续时间过短: " ++ toString d ++ "ms"
  | .durationTooLong d => "持续时间过长: " ++ toString d ++ "ms"

/-- App alias table from `get_app_packages` in `src/agent/actions/system.rs`. -/
def appPackages : List (String × String) :=
  [ ("微信", "com.tencent.mm"), ("wechat", "com.tencent.mm"),
    ("qq", "com.tencent.mobileqq"), ("微博", "com.sina.weibo"),
    ("钉钉", "com.alibaba.android.rimet"), ("抖音", "com.ss.android.ugc.aweme"),
    ("快手", "com.smile.gifmaker"),
    ("淘宝", "com.taobao.taobao"), ("天猫", "com.tmall.wireless"),
    ("京东", "com.jingdong.app.mall"), ("拼多多", "com.xunmeng.pinduoduo"),
    ("腾讯视频", "com.tencent.qqlive"), ("爱奇艺", "com.qiyi.video"),
    ("优酷", "com.youku.phone"), ("哔哩哔哩", "tv.danmaku.bili"),
    ("bilibili", "tv.danmaku.bili"),
    ("网易云音乐", "com.netease.cloudmusic"), ("qq音乐", "com.tencent.qqmusic"),
    ("酷狗音乐", "com.kugou.android"),
    ("支付宝", "com.eg.android.AlipayGphone"), ("alipay", "com.eg.android.AlipayGphone"),
    ("邮箱", "com.android.email"), ("文件管理", "com.android.filemanager"),
    ("设置", "com.android.settings"), ("相机", "com.android.camera"),
    ("gallery", "com.android.gallery3d"), ("图库", "com.android.gallery3d"),
    ("chrome", "com.android.chrome"), ("浏览器", "com.android.browser"),
    ("uc浏览器", "com.uc.browser"),
    ("电话", "com.android.contacts"), ("短信", "com.android.mms"),
    ("日历", "com.android.calendar"), ("时钟", "com.android.deskclock"),
    ("计算器", "com.android.calculator2") ]

/-- Rust `str::to_lowercase` on the ASCII fragment these strings use
(kernel-reducible, unlike `String.toLower`). -/
def strToLower (s : String) : String :=
  String.mk (s.data.map Char.toLower)

/-- `app_name_to_package` from `src/agent/actions/system.rs`: direct lookup,
then lowercase lookup, then a name containing a dot is treated as a package. -/
def app_name_to_package (app_name : String) : Option String :=
  match (appPackages.find? (fun p => p.1 = app_name)).map (fun p => p.2) with
  | some pkg => some pkg
  | none =>
      match (appPackages.find? (fun p => p.1 = strToLower app_name)).map (fun p => p.2) with
      | some pkg => some pkg
      | none =>
          if app_name.data.contains '.' then some app_name else none

/-- `ActionEnum::validate`, combining the per-variant `validate`
implementations in `touch.rs`, `swipe.rs`, `input.rs`, `navigation.rs`
and `system.rs`. -/
def ActionEnum.validate : ActionEnum → Except ActionError Unit
  | .tap a =>
      if a.x > 10000 ∨ a.y > 10000 then .error (.outOfBounds a.x a.y) else .ok ()
  | .long_press a =>
      if a.x > 10000 ∨ a.y > 10000 then .error (.outOfBounds a.x a.y)
      else if a.duration_ms < 100 then .error (.durationTooShort a.duration_ms)
      else if a.duration_ms > 10000 then .error (.durationTooLong a.duration_ms)
      else .ok ()
  | .double_tap a =>
      if a.x > 10000 ∨ a.y > 10000 then .error (.outOfBounds a.x a.y) else .ok ()
  | .swipe a =>
      if a.start_x > 10000 ∨ a.start_y > 10000 ∨ a.end_x > 10000 ∨ a.end_y > 10000 then
        .error (.outOfBounds (max a.start_x a.end_x) (max a.start_y a.end_y))
      else if a.duration_ms < 50 then .error (.durationTooShort a.duration_ms)
      else if a.duration_ms > 5000 then .error (.durationTooLong a.duration_ms)
      else .ok ()
  | .scroll a =>
      if a.distance_pct > 100 then .error (.invalidParameters "距离百分比不能超过100")
      else if a.distance_pct < 1 then .error (.invalidParameters "距离百分比不能小于1")
      else if a.duration_ms < 50 then .error (.durationTooShort a.duration_ms)
      else if a.duration_ms > 2000 then .error (.durationTooLong a.duration_ms)
      else .ok ()
  | .typeText a =>
      if a.text.isEmpty then .error (.invalidParameters "文本不能为空")
      else if a.text.length > 10000 then .error (.invalidParameters "文本过长")
      else .ok ()
  | .press_key _ => .ok ()
  | .back _ => .ok ()
  | .home _ => .ok ()
  | .recent _ => .ok ()
  | .notification _ => .ok ()
  | .launch a =>
      if a.package.isEmpty then .error (.invalidParameters "应用名称不能为空")
      else if ¬ a.package.data.contains '.' then
        match app_name_to_package a.package with
        | some _ => .ok ()
        | none => .error (.invalidParameters
            ("暂时没有 " ++ a.package ++ " 对应的包名 可以在Home页其他页面查找一下"))
      else .ok ()
  | .wait a =>
      if a.duration_ms > 60000 then .error (.durationTooLong a.duration_ms) else .ok ()
  | .screenshot _ => .ok ()
  | .finish _ => .ok ()

/-- `ActionEnum::description` (default formats from the per-variant
`description` implementations; the `TypeAction` byte-length detail of
`text.len()` is immaterial to the descriptions). -/
def ActionEnum.description : ActionEnum → String
  | .tap a => a.description.getD ("点击 (" ++ toString a.x ++ ", " ++ toString a.y ++ ")")
  | .long_press a => a.description.getD
      ("长按 (" ++ toString a.x ++ ", " ++ toString a.y ++ ") " ++ toString a.duration_ms ++ "ms")
  | .double_tap a => a.description.getD ("双击 (" ++ toString a.x ++ ", " ++ toString a.y ++ ")")
  | .swipe a => a.description.getD
      ("滑动 from (" ++ toString a.start_x ++ "," ++ toString a.start_y ++ ") to (" ++
        toString a.end_x ++ "," ++ toString a.end_y ++ ") " ++ toString a.duration_ms ++ "ms")
  | .scroll a => a.description.getD
      ("滚动 " ++ (match a.direction with
        | .up => "Up" | .down => "Down" | .left => "Left" | .right => "Right") ++ " " ++
        toString a.distance_pct ++ "% " ++ toString a.duration_ms ++ "ms")
  | .typeText a => a.description.getD ("输入文本: " ++ a.text)
  | .press_key a => a.description.getD ("按键: " ++ (reprStr a.keycode))
  | .back a => a.description.getD "按下返回键"
  | .home a => a.description.getD "按下 Home 键"
  | .recent a => a.description.getD "打开最近任务"
  | .notification a => a.description.getD "打开通知栏"
  | .launch a => a.description.getD ("启动应用: " ++ a.package)
  | .wait a => a.reason.getD ("等待 " ++ toString a.duration_ms ++ "ms")
  | .screenshot a => a.description.getD "截图"
  | .finish a => "完成任务: " ++ a.result

/-! ## Response parsing (`ActionEnum::parse_from_response`, `base.rs` lines 53-394)

The Rust code scans the response by byte index, but every index it uses is a
character boundary (indices come from `find` of ASCII patterns and from
`char_indices`), so the scan is embedded over `List Char`; character indices
replace byte indices, which is order- and structure-preserving. -/

/-- First index at which `pat` occurs in `cs` (`str::find` for a literal). -/
def findSub (pat : List Char) (cs : List Char) : Option Nat :=
  match cs with
  | [] => if pat.isEmpty then some 0 else none
  | _ :: rest =>
      if pat.isPrefixOf cs then some 0
      else (findSub pat rest).map (fun n => n + 1)

/-- The balanced-parenthesis scan from `parse_from_response`: starting at the
opening parenthesis, count `(` and `)`; report the index (relative to the scan
start) of the `)` that returns the count to zero after at least one `(`. -/
def scanBalancedAux : List Char → Int → Bool → Nat → Option Nat
  | [], _, _, _ => none
  | c :: rest, count, inBrackets, idx =>
      if c = '(' then scanBalancedAux rest (count + 1) true (idx + 1)
      else if c = ')' then
        if count - 1 = 0 ∧ inBrackets then some idx
        else scanBalancedAux rest (count - 1) inBrackets (idx + 1)
      else scanBalancedAux rest count inBrackets (idx + 1)

def scanBalanced (cs : List Char) : Option Nat :=
  scanBalancedAux cs 0 false 0

/-- Rust `str::trim` (Unicode whitespace; the inputs exercised here are
covered by `Char.isWhitespace`). -/
def trimChars (cs : List Char) : List Char :=
  ((cs.dropWhile Char.isWhitespace).reverse.dropWhile Char.isWhitespace).reverse

/-- Rust `str::trim_matches(q)`: remove every leading and trailing `q`. -/
def trimMatchesChar (q : Char) (cs : List Char) : List Char :=
  ((cs.dropWhile (fun c => c = q)).reverse.dropWhile (fun c => c = q)).reverse

/-- `strip_prefix("message=")` with `unwrap_or` fallback. -/
def dropMessageTag (cs : List Char) : List Char :=
  if ("message=".data).isPrefixOf cs then cs.drop 8 else cs

/-- The finish-literal post-processing from `parse_from_response`:
trim, drop a `message=` tag, then strip surrounding `"` and `'`. -/
def finishMessageOf (lit : List Char) : String :=
  String.mk (trimMatchesChar '\'' (trimMatchesChar '"' (dropMessageTag (trimChars lit))))

/-! ### The regular expressions of `parse_do_params`

`action_re`, `kv_re`, `array_re` and `num_re` are embedded as deterministic
matchers (each pattern is of the maximal-munch form `group\s*=\s*...`, for
which leftmost-first regex matching never backtracks). `\w`/`\d`/`\s` are
modelled on the ASCII fragment the responses use. -/

def isWordChar (c : Char) : Bool := c.isAlphanum || c = '_'

/-- Match `action\s*=\s*"([^"]+)"` at the head of `cs`; yields the capture. -/
def matchActionAt (cs : List Char) : Option (List Char) :=
  if ("action".data).isPrefixOf cs then
    let cs1 := (cs.drop 6).dropWhile Char.isWhitespace
    match cs1 with
    | '=' :: cs2 =>
        match cs2.dropWhile Char.isWhitespace with
        | '"' :: cs3 =>
            let grp := cs3.takeWhile (fun c => c ≠ '"')
            match cs3.dropWhile (fun c => c ≠ '"') with
            | '"' :: _ => if grp.isEmpty then none else some grp
            | _ => none
        | _ => none
    | _ => none
  else none

/-- Match `(\w+)\s*=\s*"([^"]*)"` at the head of `cs`; yields both captures
and the remainder after the match. -/
def matchKvAt (cs : List Char) : Option ((List Char × List Char) × List Char) :=
  let key := cs.takeWhile isWordChar
  if key.isEmpty then none
  else
    match (cs.dropWhile isWordChar).dropWhile Char.isWhitespace with
    | '=' :: cs2 =>
        match cs2.dropWhile Char.isWhitespace with
        | '"' :: cs3 =>
            let v := cs3.takeWhile (fun c => c ≠ '"')
            match cs3.dropWhile (fun c => c ≠ '"') with
            | '"' :: rest => some ((key, v), rest)
            | _ => none
        | _ => none
    | _ => none

/-- Match `(\w+)\s*=\s*\[([^\]]+)\]` at the head of `cs`. -/
def matchArrAt (cs : List Char) : Option ((List Char × List Char) × List Char) :=
  let key := cs.takeWhile isWordChar
  if key.isEmpty then none
  else
    match (cs.dropWhile isWordChar).dropWhile Char.isWhitespace with
    | '=' :: cs2 =>
        match cs2.dropWhile Char.isWhitespace with
        | '[' :: cs3 =>
            let v := cs3.takeWhile (fun c => c ≠ ']')
            if v.isEmpty then none
            else
              match cs3.dropWhile (fun c => c ≠ ']') with
              | ']' :: rest => some ((key, v), rest)
              | _ => none
        | _ => none
    | _ => none

/-- Match `(\w+)\s*=\s*(\d+)` at the head of `cs`. -/
def matchNumAt (cs : List Char) : Option ((List Char × List Char) × List Char) :=
  let key := cs.takeWhile isWordChar
  if key.isEmpty then none
  else
    match (cs.dropWhile isWordChar).dropWhile Char.isWhitespace with
    | '=' :: cs2 =>
        let cs3 := cs2.dropWhile Char.isWhitespace
        let v := cs3.takeWhile Char.isDigit
        if v.isEmpty then none else some ((key, v), cs3.drop v.length)
    | _ => none

/-- `Regex::captures` (first match): try the matcher at every start position,
leftmost first. -/
def firstMatch {α : Type} (m : List Char → Option α) : List Char → Option α
  | [] => m []
  | cs@(_ :: rest) =>
      match m cs with
      | some r => some r
      | none => firstMatch m rest

/-- `Regex::captures_iter`: all non-overlapping matches, leftmost first.
Fuel bounds the recursion; every step either consumes the match (at least one
character) or advances one position, so `cs.length + 1` fuel is exact. -/
def allMatches {α : Type} (m : List Char → Option (α × List Char)) :
    Nat → List Char → List α
  | 0, _ => []
  | _ + 1, [] => []
  | fuel + 1, cs@(_ :: rest) =>
      match m cs with
      | some (a, restAfter) => a :: allMatches m fuel restAfter
      | none => allMatches m fuel rest

/-- Digits to `Nat`. -/
def natOfDigits (cs : List Char) : Nat :=
  cs.foldl (fun a c => a * 10 + (c.toNat - '0'.toNat)) 0

/-- Rust `str::parse::<u32>` on a candidate list entry (digits only, u32
range; the optional sign accepted by Rust never occurs in these inputs). -/
def parseU32 (cs : List Char) : Option Nat :=
  if cs ≠ [] ∧ cs.all Char.isDigit then
    let n := natOfDigits cs
    if n < 4294967296 then some n else none
  else none

/-- Rust `str::split(',')`. -/
def splitOnComma (cs : List Char) : List (List Char) :=
  match cs with
  | [] => [[]]
  | c :: rest =>
      let r := splitOnComma rest
      if c = ',' then [] :: r
      else
        match r with
        | [] => [[c]]
        | h :: t => (c :: h) :: t

/-- `ParsedAction` from `src/agent/core/traits.rs`. -/
structure ParsedAction where
  action_type : String
  parameters : Params
  reasoning : String
deriving DecidableEq, Repr

/-- The `u32` modulus: `v as u32` truncates a `u64` to `v % 2^32`. -/
def u32Mod : Nat := 4294967296

/-- The keycode table of `from_parsed`'s `press_key` arm: the Rust
`match keycode as u32` on integer literals, as the equivalent equality
chain over the truncated value. -/
def pressKeyCodeOf (k : Nat) : KeyCode :=
  if k = 3 then .home
  else if k = 4 then .back
  else if k = 66 then .enter
  else if k = 111 then .escape
  else if k = 67 then .delete
  else if k = 61 then .tab
  else if k = 24 then .volumeUp
  else if k = 25 then .volumeDown
  else if k = 26 then .power
  else if k = 27 then .camera
  else .back

/-- `ActionEnum::from_parsed` (`base.rs` lines 260-394). -/
def ActionEnum.from_parsed (parsed : ParsedAction) : Option ActionEnum :=
  let ps := parsed.parameters
  match strToLower parsed.action_type with
  | "tap" =>
      match (getParam ps "element").bind Json.as_array with
      | some (c0 :: c1 :: _) => some (.tap ⟨c0 % u32Mod, c1 % u32Mod, none⟩)
      | _ =>
          match (getParam ps "x").bind Json.as_u64, (getParam ps "y").bind Json.as_u64 with
          | some x, some y => some (.tap ⟨x % u32Mod, y % u32Mod, none⟩)
          | _, _ => none
  | "long_press" =>
      match (getParam ps "element").bind Json.as_array with
      | some (c0 :: c1 :: _) =>
          let d := (((getParam ps "duration_ms").bind Json.as_u64).map
            (fun v => v % u32Mod)).getD 1000
          some (.long_press ⟨c0 % u32Mod, c1 % u32Mod, d, none⟩)
      | _ => none
  | "double_tap" =>
      match (getParam ps "element").bind Json.as_array with
      | some (c0 :: c1 :: _) => some (.double_tap ⟨c0 % u32Mod, c1 % u32Mod, none⟩)
      | _ => none
  | "swipe" =>
      match (getParam ps "start").bind Json.as_array,
            (getParam ps "end").bind Json.as_array with
      | some (s0 :: s1 :: _), some (e0 :: e1 :: _) =>
          let d := (((getParam ps "duration_ms").bind Json.as_u64).map
            (fun v => v % u32Mod)).getD 500
          some (.swipe ⟨s0 % u32Mod, s1 % u32Mod, e0 % u32Mod, e1 % u32Mod, d, none⟩)
      | _, _ => none
  | "type" =>
      match (getParam ps "text").bind Json.as_str with
      | some t => some (.typeText ⟨t, none⟩)
      | none => none
  | "press_key" =>
      match (getParam ps "keycode").bind Json.as_u64 with
      | some keycode => some (.press_key ⟨pressKeyCodeOf (keycode % u32Mod), none⟩)
      | none => none
  | "back" => some (.back ⟨none⟩)
  | "home" => some (.home ⟨none⟩)
  | "recent" => some (.recent ⟨none⟩)
  | "notification" => some (.notification ⟨none⟩)
  | "launch" =>
      match ((getParam ps "app").bind Json.as_str).orElse
            (fun _ => (getParam ps "app_name").bind Json.as_str) with
      | some app => some (.launch ⟨app, none, none⟩)
      | none => none
  | "wait" =>
      let duration_ms :=
        (((getParam ps "duration_ms").bind Json.as_u64).map (fun v => v % u32Mod)).getD
          ((((getParam ps "duration").bind Json.as_u64).map
            (fun v => v % u32Mod * 1000 % u32Mod)).getD 1000)
      let message := (getParam ps "message").bind Json.as_str
      some (.wait ⟨duration_ms, message⟩)
  | "screenshot" => some (.screenshot ⟨none⟩)
  | "finish" =>
      let result := (((getParam ps "result").bind Json.as_str).orElse
        (fun _ => (getParam ps "message").bind Json.as_str)).getD "任务完成"
      let success := (((getParam ps "success").bind Json.as_bool)).getD true
      some (.finish ⟨result, success⟩)
  | _ => none

/-- `ActionEnum::parse_do_params` (`base.rs` lines 179-257): extract the
`action` type, build the parameter map from the three capture passes
(quoted values, then `[..]` arrays overwriting, then bare integers inserted
as JSON *strings* only when the key is absent), and hand off to
`from_parsed`. -/
def parse_do_params (paramsStr : List Char) : Option ActionEnum :=
  match firstMatch matchActionAt paramsStr with
  | none => none
  | some actionCs =>
      let fuel := paramsStr.length + 1
      let ps : Params :=
        (allMatches matchKvAt fuel paramsStr).foldl (fun acc kv =>
          if String.mk kv.1 ≠ "action" then
            insertParam acc (String.mk kv.1) (.str (String.mk kv.2))
          else acc) []
      let ps :=
        (allMatches matchArrAt fuel paramsStr).foldl (fun acc kv =>
          let vals := (splitOnComma kv.2).filterMap (fun s => parseU32 (trimChars s))
          if ¬ vals.isEmpty ∧ String.mk kv.1 ≠ "action" then
            insertParam acc (String.mk kv.1) (.arr vals)
          else acc) ps
      let ps :=
        (allMatches matchNumAt fuel paramsStr).foldl (fun acc kv =>
          if String.mk kv.1 ≠ "action" ∧ ¬ containsParam acc (String.mk kv.1) then
            insertParam acc (String.mk kv.1) (.str (String.mk kv.2))
          else acc) ps
      ActionEnum.from_parsed
        ⟨String.mk actionCs, ps, String.mk paramsStr⟩

/-- The `do(...)` scan loop of `parse_from_response` (rule 2): find each
`do(`, bracket-match its body, parse the body, skip bodies that fail to
parse, and stop at the first `do(` without a matching bracket. `fuel`
bounds the recursion; the search start strictly advances each round. -/
def parseDoLoop (cs : List Char) : Nat → Nat → List ActionEnum
  | _, 0 => []
  | searchStart, fuel + 1 =>
      match findSub ("do(".data) (cs.drop searchStart) with
      | none => []
      | some rel =>
          let actualStart := searchStart + rel
          match scanBalanced (cs.drop (actualStart + 2)) with
          | some j =>
              if 0 < j then
                let endPos := actualStart + 2 + j
                let paramsStr := trimChars ((cs.drop (actualStart + 3)).take (j - 1))
                let rest := parseDoLoop cs (endPos + 1) fuel
                match parse_do_params paramsStr with
                | some a => a :: rest
                | none => rest
              else []
          | none => []

/-- The action-list component of `ActionEnum::parse_from_response`
(`base.rs` lines 53-172). The `<thinking>` extraction in the same function
only produces the other component of the returned pair and has no effect on
the action list, so it is not modelled here. Rule 1: the *first* `finish(`
occurrence is bracket-matched and, when closed, yields the single `Finish`
action; otherwise rule 2 collects every parsable `do(...)`. -/
def parse_from_response_actions (content : String) : List ActionEnum :=
  match findSub ("finish(".data) content.data with
  | some i =>
      match scanBalanced (content.data.drop (i + 6)) with
      | some j =>
          if 0 < j then
            [ .finish ⟨finishMessageOf ((content.data.drop (i + 7)).take (j - 1)), true⟩ ]
          else parseDoLoop content.data 0 (content.data.length + 1)
      | none => parseDoLoop content.data 0 (content.data.length + 1)
  | none => parseDoLoop content.data 0 (content.data.length + 1)

/-! ## Device wrapper coordinate conversion
(`src/agent/executor/device_wrapper.rs`) -/

/-- The resolution state of `ScrcpyDeviceWrapper`: physical panel resolution
and override (render) resolution, both filled by `parse_and_store_resolution`. -/
structure ScrcpyDeviceWrapper where
  physical_resolution : Option (Nat × Nat)
  override_resolution : Option (Nat × Nat)
deriving DecidableEq, Repr

/-- `f64 as u32` saturates at `u32::MAX`. -/
def u32Sat (n : Nat) : Nat := min n 4294967295

/-- `convert_to_physical_coords` (`device_wrapper.rs` lines 42-62): when an
override resolution is known the input is interpreted on a fixed 1000×1000
grid and scaled onto the override resolution (`logical * override / 1000`,
truncated); otherwise the coordinates pass through unchanged. The `f64`
arithmetic of the source is exact for every product below `2^53` and the
final `as u32` saturates, hence the `Nat` floor division with clamp. -/
def convert_to_physical_coords (w : ScrcpyDeviceWrapper) (logical_x logical_y : Nat) :
    Nat × Nat :=
  match w.override_resolution with
  | some (ow, oh) => (u32Sat (logical_x * ow / 1000), u32Sat (logical_y * oh / 1000))
  | none => (logical_x, logical_y)

/-- The coordinate pair handed to `adb shell input tap` by
`ScrcpyDeviceWrapper::tap` (lines 323-377). -/
def tapCommandCoords (w : ScrcpyDeviceWrapper) (x y : Nat) : Nat × Nat :=
  convert_to_physical_coords w x y

/-- The two coordinate pairs handed to `adb shell input swipe` by
`ScrcpyDeviceWrapper::swipe` (lines 379-454). -/
def swipeCommandCoords (w : ScrcpyDeviceWrapper) (x1 y1 x2 y2 : Nat) :
    (Nat × Nat) × (Nat × Nat) :=
  (convert_to_physical_coords w x1 y1, convert_to_physical_coords w x2 y2)

/-- `ScrcpyDeviceWrapper::long_press` delegates to `swipe` with identical
endpoints (lines 456-461). -/
def longPressCommandCoords (w : ScrcpyDeviceWrapper) (x y _d : Nat) :
    (Nat × Nat) × (Nat × Nat) :=
  swipeCommandCoords w x y x y

/-- `ScrcpyDeviceWrapper::double_tap` performs two `tap`s at the same point
(lines 463-470). -/
def doubleTapCommandCoords (w : ScrcpyDeviceWrapper) (x y : Nat) :
    (Nat × Nat) × (Nat × Nat) :=
  (tapCommandCoords w x y, tapCommandCoords w x y)

/-- The delivered-coordinate formula as worded by the amended claim: with an
override resolution, `floor(logical * override / 1000)` componentwise (the
1000×1000 logical grid), independent of the physical resolution; without
one, the logical coordinate unchanged. -/
def amendedDelivered (ovr : Option (Nat × Nat)) (x y : Nat) : Nat × Nat :=
  match ovr with
  | some (ow, oh) => (x * ow / 1000, y * oh / 1000)
  | none => (x, y)

/-- Bound under which the saturation in `convert_to_physical_coords` is
invisible (every scaled coordinate stays in `u32`). -/
def OvrBounded : Option (Nat × Nat) → Prop
  | some (ow, oh) => ow ≤ 1000000 ∧ oh ≤ 1000000
  | none => True

instance : DecidablePred OvrBounded := by
  intro o
  unfold OvrBounded
  match o with
  | some (ow, oh) => exact inferInstanceAs (Decidable (_ ∧ _))
  | none => exact inferInstanceAs (Decidable True)

/-! ## Agent loop (`src/agent/core/agent.rs`) -/

/-- `MessageRole` from `src/agent/core/traits.rs`. -/
inductive MessageRole where
  | system | user | assistant
deriving DecidableEq, Repr

/-- `ChatMessage` from `src/agent/core/traits.rs`. -/
structure ChatMessage where
  role : MessageRole
  content : String
deriving DecidableEq, Repr

/-- `ActionResult` from `src/agent/core/traits.rs`. -/
structure ActionResult where
  success : Bool
  message : String
  duration_ms : Nat
  screenshot_before : Option String
  screenshot_after : Option String
deriving DecidableEq, Repr

/-- `ActionResult::success` constructor. -/
def ActionResult.mkSuccess (message : String) (duration_ms : Nat) : ActionResult :=
  ⟨true, message, duration_ms, none, none⟩

/-- The model response consumed by the loop (`ModelResponse` as constructed
by `autoglm_client.rs`: content, parsed actions, optional reasoning,
token count; the constant `confidence` is immaterial). -/
structure ModelResponse where
  content : String
  actions : List ActionEnum
  reasoning : Option String
  tokens_used : Nat
deriving DecidableEq, Repr

/-- `AgentState` from `src/agent/core/state.rs`. -/
inductive AgentState where
  | idle
  | initializing
  | analyzing (step : Nat)
  | executing (step : Nat) (action : String)
  | waiting (step : Nat) (reason : String)
  | paused (step : Nat)
  | completed (steps : Nat) (duration_ms : Nat)
  | failed (step : Nat) (error : String)
deriving DecidableEq, Repr

/-- `AgentConfig` from `src/agent/core/state.rs`. -/
structure AgentConfig where
  max_steps : Nat
  max_execution_time : Nat
  action_delay : Nat
  screenshot_quality : Nat
  enable_retry : Bool
  max_retries : Nat
  enable_safety : Bool
  enable_rollback : Bool
  log_file : String
deriving DecidableEq, Repr

/-- `AgentConfig::default`. -/
def AgentConfig.default : AgentConfig :=
  ⟨50, 300, 1000, 80, true, 3, true, false, "logs/agent.log"⟩

/-- `ExecutionStep` audit record from `src/agent/core/traits.rs`
(the wall-clock `timestamp` field is abstracted away). -/
structure ExecutionStep where
  step_number : Nat
  action_type : String
  action_description : String
  result : ActionResult
  screenshot : String
  reasoning : String
deriving DecidableEq, Repr

/-- `AgentError` from `src/agent/core/traits.rs` (the variants exercised by
the embedded operations). -/
inductive AgentError where
  | notFound (s : String)
  | deviceNotFound (s : String)
  | validationError (s : String)
  | connectionError (s : String)
  | alreadyRunning
  | notRunning
  | invalidStateTransition (fromSt toSt : String)
deriving DecidableEq, Repr

/-- The mutable pieces of `AgentRuntime` touched by `run_agent_loop`; the
loop-local `step` variable of `run_agent_loop` and `AgentRuntime`'s
`step_counter` stay equal throughout a run (both start at 0 and advance only
through `increment_step`), so a single `step` field models both. -/
structure LoopRt where
  state : AgentState
  step : Nat
  history : List ExecutionStep
  messages : List ChatMessage
deriving DecidableEq, Repr

/-- External inputs to one agent run: the config, the elapsed-time oracle
(`runtime.elapsed_ms` sampled at the top of iteration `k`), the screenshot
oracle (`device.screenshot`, assumed to succeed as in the scenarios under
verification), and the executor oracle. -/
structure LoopEnv where
  cfg : AgentConfig
  elapsed_ms : Nat → Nat
  screenshotAt : Nat → String
  execResult : ActionEnum → ActionResult

/-- The fixed feedback message injected on an empty-action response
(`agent.rs` lines 203-205). -/
def noActionFeedbackMsg : String :=
  "你的回复中没有包含 do(action=...) 格式的执行动作，我无法解析。\n\n请严格按照 do(action=ActionType, ...) 格式回复，例如：\n- do(action=\"Tap\", element=[x,y])\n- do(action=\"Type\", text=\"xxx\")\n- do(action=\"Swipe\", start=[x1,y1], end=[x2,y2])\n- do(action=\"Launch\", app=\"xxx\")\n- do(action=\"Back\")\n\n请重新分析屏幕并告诉我下一步操作。"

/-- The no-progress guard error (`agent.rs` line 134). -/
def consecutiveNoActionError (n : Nat) : String :=
  "连续 " ++ toString n ++ " 次未返回有效操作，停止执行"

/-- The max-steps guard error (`agent.rs` line 124). -/
def maxStepsError (step : Nat) : String :=
  "超过最大步数限制: " ++ toString step

/-- The timeout guard error (`agent.rs` line 146). -/
def timeoutError (elapsed maxMs : Nat) : String :=
  "执行超时: " ++ toString elapsed ++ "ms > " ++ toString maxMs ++ "ms"

/-- The completion assistant message (`agent.rs` lines 220-224). -/
def completionMsg (content reasoning : String) : String :=
  "任务完成。" ++ content ++ "\n思考过程: " ++ reasoning

/-- The per-batch assistant summary (`agent.rs` lines 281-289). -/
def batchAssistantMsg (actions : List ActionEnum) (reasoning : String) : String :=
  "我决定执行 " ++ toString actions.length ++ " 个操作:\n" ++
    (String.intercalate "\n" (actions.map
      (fun a => a.description ++ " (" ++ a.action_type ++ ")"))) ++
    "\n思考: " ++ reasoning

/-- The per-batch user result summary (`agent.rs` lines 292-316). -/
def batchResultMsg (step : Nat) (pairs : List (ActionEnum × ActionResult)) : String :=
  let parts := pairs.enum.map (fun pr =>
    let a := pr.2.1
    let r := pr.2.2
    let status := if r.success then "成功" else "失败"
    let detail := if r.success then "详情: " ++ r.message else "错误: " ++ r.message
    "- 操作 #" ++ toString (pr.1 + 1) ++ ": " ++ a.action_type ++ " (" ++ a.description ++
      ")\n  状态: " ++ status ++ "\n  " ++ detail ++ "\n  耗时: " ++
      toString r.duration_ms ++ "ms")
  "操作结果（步骤 " ++ toString step ++ "）:\n" ++ String.intercalate "\n" parts ++
    "\n\n请分析当前屏幕并决定下一步操作。"

/-- One run of the `loop` in `run_agent_loop` (`agent.rs` lines 121-359),
driven by the list of model responses yet to arrive. Each iteration performs
the three bound checks in source order, sets `Analyzing`, captures the
screenshot, consumes the next model response, and takes the
empty-action / finish / execute branch. When the response list is exhausted
mid-run the function returns the in-flight state (the loop is blocked inside
the model query). `ActionHandler::execute_multiple_actions` is called by the
loop but its definition is absent from the sources under `src/`; modelled
from the spec: it executes the batch in document order, one result per
action, and a failed action does not stop the batch — here via the
`execResult` oracle. -/
def runLoop (env : LoopEnv) (resps : List ModelResponse) (noActionCount : Nat)
    (st : LoopRt) : LoopRt :=
      if st.step ≥ env.cfg.max_steps then
        { st with state := .failed st.step (maxStepsError st.step) }
      else if noActionCount ≥ 3 then
        { st with state := .failed st.step (consecutiveNoActionError noActionCount) }
      else if env.elapsed_ms st.step > env.cfg.max_execution_time * 1000 then
        let err := timeoutError (env.elapsed_ms st.step) (env.cfg.max_execution_time * 1000)
        { st with state := .failed st.step err }
      else
        match resps with
        | [] => { st with state := .analyzing st.step }
        | r :: rest =>
            let st : LoopRt := { st with state := .analyzing st.step }
            let shot := env.screenshotAt st.step
            if r.actions.isEmpty then
              let newMsgs : List ChatMessage :=
                [⟨.assistant, r.content⟩, ⟨.user, noActionFeedbackMsg⟩]
              let st : LoopRt := { st with messages := st.messages ++ newMsgs }
              runLoop env rest (noActionCount + 1) { st with step := st.step + 1 }
            else if r.actions.any (fun a => a.action_type = "finish") then
              let reasoning := r.reasoning.getD ""
              let newMsgs : List ChatMessage :=
                [⟨.assistant, completionMsg r.content reasoning⟩]
              let st : LoopRt := { st with messages := st.messages ++ newMsgs }
              { st with state := .completed st.step (env.elapsed_ms st.step) }
            else
              let results := r.actions.map env.execResult
              let reasoning := r.reasoning.getD ""
              let pairs := r.actions.zip results
              let records : List ExecutionStep := pairs.map (fun pr =>
                { step_number := st.step
                  action_type := pr.1.action_type
                  action_description := pr.1.description
                  result := pr.2
                  screenshot := shot
                  reasoning := reasoning })
              let lastTy := (r.actions.getLast?.map ActionEnum.action_type).getD ""
              let st : LoopRt := { st with
                state := .executing st.step lastTy
                history := st.history ++ records }
              let newMsgs : List ChatMessage :=
                [⟨.assistant, batchAssistantMsg r.actions reasoning⟩,
                 ⟨.user, batchResultMsg st.step pairs⟩]
              let st : LoopRt := { st with messages := st.messages ++ newMsgs }
              runLoop env rest 0 { st with step := st.step + 1 }

/-- The initial user message of `run_agent_loop` (lines 111-114). -/
def initialUserMessage (task : String) : String :=
  "任务: " ++ task ++
    "\n\n 请分析当前屏幕并决定 需要怎么操作。告诉我的操作尽量简洁 并且需要严格按照do(action= 格式回复 否则我无法解析"

/-- `run_agent_loop` from its entry: system prompt plus initial user message
(the prompt text computed by `get_main_system_prompt` is passed in), then the
loop from step 0 with a zero no-action count. `start()` has set the state to
`Initializing`. -/
def run_agent_loop (env : LoopEnv) (systemPrompt task : String)
    (resps : List ModelResponse) : LoopRt :=
  runLoop env resps 0
    { state := .initializing
      step := 0
      history := []
      messages := [⟨.system, systemPrompt⟩, ⟨.user, initialUserMessage task⟩] }

/-- `PhoneAgent::pause` (`agent.rs` lines 448-462): from `Analyzing` or
`Executing` the shared state is set to `Paused` at the runtime step counter;
any other state is rejected with `NotRunning`. The returned state is the
value written to `runtime.state`. -/
def pauseAgent (st : AgentState) (stepCounter : Nat) : Except AgentError AgentState :=
  match st with
  | .analyzing _ => .ok (.paused stepCounter)
  | .executing _ _ => .ok (.paused stepCounter)
  | _ => .error .notRunning

/-- `PhoneAgent::resume` (`agent.rs` lines 464-479): from `Paused` it returns
`Ok` while leaving the state untouched (the body is a bare `Ok(())` behind a
`TODO: 实现恢复逻辑` comment); otherwise `InvalidStateTransition`. The
returned state is the value of `runtime.state` after the call. -/
def resumeAgent (st : AgentState) : Except AgentError AgentState :=
  match st with
  | .paused k => .ok (.paused k)
  | _ => .error (.invalidStateTransition "NotPaused" "Running")

/-! ## Device pool (`src/agent/pool/device_pool.rs`, `device_entry.rs`) -/

/-- `DeviceStatus` from `src/agent/pool/types.rs`. -/
inductive DeviceStatus where
  | registered | connecting | connected | busy | disconnected | offline
  | error (msg : String)
deriving DecidableEq, Repr

/-- `DeviceEntry` from `src/agent/pool/device_entry.rs`. Streaming-session
and agent handles are identified by allocation numbers; wall-clock fields
hold abstract tick values supplied by the caller. -/
structure DeviceEntry where
  serial : String
  name : Option String
  scrcpy : Option Nat
  agent : Option Nat
  status : DeviceStatus
  last_used : Nat
  created_at : Nat
  current_task_id : Option String
  current_task : Option String
deriving DecidableEq, Repr

/-- `DeviceEntry::new`. -/
def DeviceEntry.mkNew (serial : String) (name : Option String) (now : Nat) : DeviceEntry :=
  ⟨serial, name, none, none, .registered, now, now, none, none⟩

/-- `DeviceEntry::touch`. -/
def DeviceEntry.touch (e : DeviceEntry) (now : Nat) : DeviceEntry :=
  { e with last_used := now }

/-- `DeviceEntry::set_status` (also touches `last_used`). -/
def DeviceEntry.set_status (e : DeviceEntry) (status : DeviceStatus) (now : Nat) :
    DeviceEntry :=
  { e with status := status, last_used := now }

/-- `DeviceEntry::start_task`. -/
def DeviceEntry.start_task (e : DeviceEntry) (task_id task : String) (now : Nat) :
    DeviceEntry :=
  { e with
    current_task_id := some task_id
    current_task := some task
    status := .busy
    last_used := now }

/-- `DeviceEntry::complete_task`: clears the task pair, sets `Connected`,
touches — and leaves the `agent` handle untouched. -/
def DeviceEntry.complete_task (e : DeviceEntry) (now : Nat) : DeviceEntry :=
  { e with
    current_task_id := none
    current_task := none
    status := .connected
    last_used := now }

/-- `DeviceEntry::idle_seconds` with an abstract clock. -/
def DeviceEntry.idle_seconds (e : DeviceEntry) (now : Nat) : Nat :=
  now - e.last_used

/-- `DeviceEntry::is_idle`. -/
def DeviceEntry.is_idle (e : DeviceEntry) (threshold now : Nat) : Bool :=
  e.idle_seconds now > threshold ∧ e.agent.isNone ∧ e.current_task_id.isNone

/-- The pool's device map (`HashMap<String, DeviceEntry>`); the map order is
never observed by the embedded operations. -/
abbrev Pool := List (String × DeviceEntry)

/-- `devices.get(serial)`. -/
def poolFind (p : Pool) (serial : String) : Option DeviceEntry :=
  (p.find? (fun pr => pr.1 = serial)).map (fun pr => pr.2)

/-- Replace the entry stored under `serial`. -/
def poolSet (p : Pool) (serial : String) (e : DeviceEntry) : Pool :=
  p.map (fun pr => if pr.1 = serial then (serial, e) else pr)

/-- `DevicePool::register_device` (lines 70-108): reject when the connection
limit is reached or the serial is present; otherwise insert a fresh entry. -/
def register_device (p : Pool) (max_connections : Nat) (serial : String)
    (name : Option String) (now : Nat) : Except AgentError Pool :=
  if p.length ≥ max_connections then
    .error (.validationError ("已达最大连接数限制: " ++ toString max_connections))
  else if (poolFind p serial).isSome then
    .error (.validationError ("设备已注册: " ++ serial))
  else
    .ok (p ++ [(serial, DeviceEntry.mkNew serial name now)])

/-- `DevicePool::unregister_device` (lines 111-136): remove the entry (its
agent, if any, is stopped as a side effect). -/
def unregister_device (p : Pool) (serial : String) : Except AgentError Pool :=
  if (poolFind p serial).isSome then
    .ok (p.filter (fun pr => pr.1 ≠ serial))
  else
    .error (.deviceNotFound serial)

/-- The intermediate entry state inside `connect_device`, after
`set_status(Connecting)` and before the session is attached (line 157). -/
def connectPending (e : DeviceEntry) (now : Nat) : DeviceEntry :=
  e.set_status .connecting now

/-- `DevicePool::connect_device` (lines 139-173): unknown serial errors;
an entry that already holds a session returns `Ok` with no mutation at all;
otherwise the entry passes through `Connecting`, receives a freshly created
session handle (`sess`), and lands on `Connected`. -/
def connect_device (p : Pool) (serial : String) (sess now : Nat) :
    Except AgentError Pool :=
  match poolFind p serial with
  | none => .error (.deviceNotFound serial)
  | some e =>
      if e.scrcpy.isSome then .ok p
      else
        let e1 := connectPending e now
        let e2 := ({ e1 with scrcpy := some sess } : DeviceEntry).set_status .connected now
        .ok (poolSet p serial e2)

/-- `DevicePool::disconnect_device` (lines 176-205). -/
def disconnect_device (p : Pool) (serial : String) (now : Nat) :
    Except AgentError Pool :=
  match poolFind p serial with
  | none => .error (.deviceNotFound serial)
  | some e =>
      let e2 := ({ e with agent := none, scrcpy := none } : DeviceEntry).set_status
        .disconnected now
      .ok (poolSet p serial e2)

/-- `DevicePool::get_agent` (lines 208-281): ensure the device is connected,
reuse an existing agent (with a `touch`), else attach a freshly minted agent
handle (`freshAgent`) and flip the status to `Busy`. -/
def get_agent (p : Pool) (serial : String) (sess freshAgent now : Nat) :
    Except AgentError (Pool × Nat) :=
  match connect_device p serial sess now with
  | .error err => .error err
  | .ok p1 =>
      match poolFind p1 serial with
      | none => .error (.deviceNotFound serial)
      | some e =>
          match e.agent with
          | some a => .ok (poolSet p1 serial (e.touch now), a)
          | none =>
              if e.scrcpy.isNone then
                .error (.connectionError "设备未连接")
              else
                let e2 := ({ e with agent := some freshAgent } : DeviceEntry).set_status
                  .busy now
                .ok (poolSet p1 serial e2, freshAgent)

/-- `DevicePool::release_agent` (lines 284-312): when the entry holds an
agent, take it, stop it, set `Connected`, then `complete_task` (which sets
`Connected` again and clears the task pair); an entry without an agent is
returned untouched with `Ok`. -/
def release_agent (p : Pool) (serial : String) (now : Nat) :
    Except AgentError Pool :=
  match poolFind p serial with
  | none => .error (.deviceNotFound serial)
  | some e =>
      match e.agent with
      | some _ =>
          let e2 := (({ e with agent := none } : DeviceEntry).set_status
            .connected now).complete_task now
          .ok (poolSet p serial e2)
      | none => .ok p

/-- `DevicePool::update_task_status` (lines 390-418). -/
def update_task_status (p : Pool) (serial task_id task : String) (now : Nat) :
    Except AgentError Pool :=
  match poolFind p serial with
  | none => .error (.deviceNotFound serial)
  | some e => .ok (poolSet p serial (e.start_task task_id task now))

/-- `DevicePool::mark_task_completed` (lines 421-446): `complete_task` on
the entry — status becomes `Connected` while the agent handle stays. -/
def mark_task_completed (p : Pool) (serial : String) (now : Nat) :
    Except AgentError Pool :=
  match poolFind p serial with
  | none => .error (.deviceNotFound serial)
  | some e => .ok (poolSet p serial (e.complete_task now))

/-- `DevicePool::mark_task_failed` (lines 449-472): identical entry
mutation to `mark_task_completed`. -/
def mark_task_failed (p : Pool) (serial : String) (now : Nat) :
    Except AgentError Pool :=
  match poolFind p serial with
  | none => .error (.deviceNotFound serial)
  | some e => .ok (poolSet p serial (e.complete_task now))

/-- `DevicePool::cleanup_idle_devices` (lines 342-371): for each idle entry
(`is_idle` requires no agent and no task) the agent would be taken (vacuous),
and past twice the threshold the session is dropped and the entry
disconnected. -/
def cleanup_idle_devices (p : Pool) (threshold now : Nat) : Pool :=
  p.map (fun pr =>
    let e := pr.2
    if e.is_idle threshold now then
      if e.idle_seconds now > threshold * 2 then
        (pr.1, ({ e with scrcpy := none } : DeviceEntry).set_status .disconnected now)
      else (pr.1, e)
    else pr)

/-- `DevicePool::health_check` (lines 374-387). -/
def health_check (p : Pool) : List (String × Bool) :=
  p.map (fun pr =>
    (pr.1, pr.2.scrcpy.isSome ∧
      (pr.2.status = .connected ∨ pr.2.status = .busy)))

/-- The claimed pool invariant: an entry holding an agent handle is `Busy`. -/
def poolInv (p : Pool) : Prop :=
  ∀ pr ∈ p, (pr : String × DeviceEntry).2.agent.isSome → pr.2.status = .busy

instance (p : Pool) : Decidable (poolInv p) :=
  inferInstanceAs (Decidable (∀ pr ∈ p, _ → _))

/-- The invariant together with the companion fact the pool operations
maintain alongside it: an entry holding an agent also holds its streaming
session (`get_agent` only attaches an agent to a connected entry, and every
operation that drops the session also drops the agent). -/
def poolInvFull (p : Pool) : Prop :=
  ∀ pr ∈ p, (pr : String × DeviceEntry).2.agent.isSome →
    pr.2.status = .busy ∧ pr.2.scrcpy.isSome

instance (p : Pool) : Decidable (poolInvFull p) :=
  inferInstanceAs (Decidable (∀ pr ∈ p, _ → _))

/-! ## Model client (`src/agent/llm/autoglm_client.rs`) -/

/-- The configuration fields of `ModelConfig` consulted by the embedded
request logic. -/
structure ModelCfg where
  model_name : String
  auxiliary_model_name : Option String
  enable_three_stage : Bool
deriving DecidableEq, Repr

/-- Outcome of a query: the final content, the actions parsed from it, and
how many auxiliary-model HTTP requests were issued along the way. -/
structure QueryOutcome where
  content : String
  actions : List ActionEnum
  auxiliary_requests : Nat
deriving DecidableEq, Repr

/-- `send_auxiliary_request` (lines 198-253): without a configured auxiliary
model the original content is returned untouched and no request is made;
with one, a single correction request is issued and its reply replaces the
content (`aux` is the auxiliary model treated as an oracle; the error path,
in which the caller keeps the original content, is not needed by the claims
and is represented by the oracle's reply). -/
def send_auxiliary_request (cfg : ModelCfg) (aux : String → String)
    (original : String) : String × Nat :=
  match cfg.auxiliary_model_name with
  | none => (original, 0)
  | some _ => (aux original, 1)

/-- The single-stage tail of `query_with_messages` (lines 686-733): after
the primary model replies with `primary`, the auxiliary correction is run
whenever `auxiliary_model_name` is configured — the parse outcome of the
primary content is never consulted — and only then is the (possibly
corrected) content parsed. -/
def query_single_stage (cfg : ModelCfg) (aux : String → String)
    (primary : String) : QueryOutcome :=
  let step :=
    if cfg.auxiliary_model_name.isSome then send_auxiliary_request cfg aux primary
    else (primary, 0)
  ⟨step.1, parse_from_response_actions step.1, step.2⟩

/-- The stage-3 gate of `process_three_stage_internal` (lines 564-577): the
auxiliary correction runs only when parsing the stage-2 output yields zero
actions. -/
def three_stage_correction (cfg : ModelCfg) (aux : String → String)
    (execOutput : String) : String × Nat :=
  if (parse_from_response_actions execOutput).isEmpty then
    send_auxiliary_request cfg aux execOutput
  else (execOutput, 0)

/-! ## Action executor (`src/agent/executor/handler.rs`) -/

/-- Outcome of one `action.execute(device)` attempt: `Ok(result)` (whose
`success` flag may still be false) or a thrown device error. -/
inductive ExecOutcome where
  | okResult (r : ActionResult)
  | thrown (msg : String)
deriving DecidableEq, Repr

/-- Observable calls made by the executor, in order. -/
inductive ExecEvent where
  | validateCall
  | executeAttempt (attempt : Nat)
deriving DecidableEq, Repr

/-- The attempt loop of `ActionHandler::execute_with_retry` (lines 47-79):
`attempt` ranges over `0..=max_retries`; a successful result returns
immediately, a result with `success = false` or a thrown error becomes the
retained last error and the next attempt follows; exhaustion returns the
last error. `remaining` counts the attempts left. -/
def executeRetryAux (dev : Nat → ExecOutcome) :
    Nat → Nat → Option String → Except String ActionResult × List ExecEvent
  | 0, _, lastErr => (.error (lastErr.getD "操作失败，已达到最大重试次数"), [])
  | remaining + 1, attempt, _lastErr =>
      match dev attempt with
      | .okResult r =>
          if r.success then (.ok r, [.executeAttempt attempt])
          else
            let next := executeRetryAux dev remaining (attempt + 1) (some r.message)
            (next.1, .executeAttempt attempt :: next.2)
      | .thrown m =>
          let next := executeRetryAux dev remaining (attempt + 1) (some m)
          (next.1, .executeAttempt attempt :: next.2)

/-- `ActionHandler::execute_with_retry` (lines 38-80) for a given action:
the device behaviour of `action.execute` at each attempt is the oracle
`dev`. The function performs no validation — the returned event trace is
the proof-bearing record of the calls it makes. -/
def execute_with_retry (_action : ActionEnum) (max_retries : Nat)
    (dev : Nat → ExecOutcome) : Except String ActionResult × List ExecEvent :=
  executeRetryAux dev (max_retries + 1) 0 none

/-- `ActionHandler::convert_action_params` (lines 108-200): the shape
adapters applied before `from_json`. -/
def convert_action_params (action_type : String) (ps : Params) :
    Except String Params :=
  if action_type = "tap" ∨ action_type = "long_press" ∨ action_type = "double_tap" then
    let (el, ps1) := removeParam ps "element"
    match el.bind Json.as_array with
    | some (x :: y :: _) =>
        .ok (insertParam (insertParam ps1 "x" (.num x)) "y" (.num y))
    | _ => .ok ps1
  else if action_type = "swipe" then
    let (s, ps1) := removeParam ps "start"
    let ps2 :=
      match s.bind Json.as_array with
      | some (x :: y :: _) =>
          insertParam (insertParam ps1 "start_x" (.num x)) "start_y" (.num y)
      | _ => ps1
    let (e, ps3) := removeParam ps2 "end"
    let ps4 :=
      match e.bind Json.as_array with
      | some (x :: y :: _) =>
          insertParam (insertParam ps3 "end_x" (.num x)) "end_y" (.num y)
      | _ => ps3
    let ps5 :=
      if containsParam ps4 "duration_ms" then ps4
      else insertParam ps4 "duration_ms" (.num 500)
    .ok ps5
  else if action_type = "launch" then
    let (app, ps1) := removeParam ps "app"
    match app.bind Json.as_str with
    | some app_name =>
        match app_name_to_package app_name with
        | some package => .ok (insertParam ps1 "package" (.str package))
        | none => .error ("无法识别的应用名称: " ++ app_name)
    | none => .ok ps1
  else if action_type = "wait" then
    let (dur, ps1) := removeParam ps "duration"
    let ps2 :=
      match dur with
      | some d =>
          let duration_ms :=
            match d.as_u64 with
            | some seconds => seconds * 1000
            | none =>
                match d.as_str with
                | some s => ((parseU32 s.data).map (fun n => n * 1000)).getD 1000
                | none => 1000
          insertParam ps1 "duration_ms" (.num duration_ms)
      | none => ps1
    let ps3 :=
      if containsParam ps2 "duration_ms" then ps2
      else insertParam ps2 "duration_ms" (.num 1000)
    let (msg, ps4) := removeParam ps3 "message"
    match msg with
    | some m => .ok (insertParam ps4 "reason" m)
    | none => .ok ps4
  else .ok ps

/-- `serde` extraction helpers for `ActionEnum::from_json` (`base.rs`
lines 501-525 with derived `Deserialize`); the exact serde error strings
are abstracted. -/
def reqU32Field (ps : Params) (k : String) : Except String Nat :=
  match getParam ps k with
  | some (.num n) => if n < u32Mod then .ok n else .error ("invalid u32 field " ++ k)
  | some _ => .error ("invalid type for field " ++ k)
  | none => .error ("missing field " ++ k)

def reqStrField (ps : Params) (k : String) : Except String String :=
  match getParam ps k with
  | some (.str s) => .ok s
  | some _ => .error ("invalid type for field " ++ k)
  | none => .error ("missing field " ++ k)

def reqBoolField (ps : Params) (k : String) : Except String Bool :=
  match getParam ps k with
  | some (.jbool b) => .ok b
  | some _ => .error ("invalid type for field " ++ k)
  | none => .error ("missing field " ++ k)

def optStrField (ps : Params) (k : String) : Except String (Option String) :=
  match getParam ps k with
  | some (.str s) => .ok (some s)
  | some _ => .error ("invalid type for field " ++ k)
  | none => .ok none

/-- serde of the unit-variant enums `KeyCode` / `ScrollDirection` (encoded
as their variant-name strings). -/
def keyCodeOfString : String → Except String KeyCode
  | "Enter" => .ok .enter
  | "Escape" => .ok .escape
  | "Delete" => .ok .delete
  | "Backspace" => .ok .backspace
  | "Tab" => .ok .tab
  | "Home" => .ok .home
  | "Back" => .ok .back
  | "VolumeUp" => .ok .volumeUp
  | "VolumeDown" => .ok .volumeDown
  | "Power" => .ok .power
  | "Camera" => .ok .camera
  | s => .error ("unknown KeyCode variant " ++ s)

def scrollDirectionOfString : String → Except String ScrollDirection
  | "Up" => .ok .up
  | "Down" => .ok .down
  | "Left" => .ok .left
  | "Right" => .ok .right
  | s => .error ("unknown ScrollDirection variant " ++ s)

/-- `ActionEnum::from_json` (`base.rs` lines 501-525): dispatch on the exact
action-type string and deserialize the variant's struct. -/
def ActionEnum.from_json (action_type : String) (ps : Params) :
    Except String ActionEnum :=
  match action_type with
  | "tap" => do
      let x ← reqU32Field ps "x"
      let y ← reqU32Field ps "y"
      let d ← optStrField ps "description"
      .ok (.tap ⟨x, y, d⟩)
  | "long_press" => do
      let x ← reqU32Field ps "x"
      let y ← reqU32Field ps "y"
      let dur ← reqU32Field ps "duration_ms"
      let d ← optStrField ps "description"
      .ok (.long_press ⟨x, y, dur, d⟩)
  | "double_tap" => do
      let x ← reqU32Field ps "x"
      let y ← reqU32Field ps "y"
      let d ← optStrField ps "description"
      .ok (.double_tap ⟨x, y, d⟩)
  | "swipe" => do
      let sx ← reqU32Field ps "start_x"
      let sy ← reqU32Field ps "start_y"
      let ex ← reqU32Field ps "end_x"
      let ey ← reqU32Field ps "end_y"
      let dur ← reqU32Field ps "duration_ms"
      let d ← optStrField ps "description"
      .ok (.swipe ⟨sx, sy, ex, ey, dur, d⟩)
  | "scroll" => do
      let dirS ← reqStrField ps "direction"
      let dir ← scrollDirectionOfString dirS
      let pct ← reqU32Field ps "distance_pct"
      let dur ← reqU32Field ps "duration_ms"
      let d ← optStrField ps "description"
      .ok (.scroll ⟨dir, pct, dur, d⟩)
  | "type" => do
      let t ← reqStrField ps "text"
      let d ← optStrField ps "description"
      .ok (.typeText ⟨t, d⟩)
  | "press_key" => do
      let kS ← reqStrField ps "keycode"
      let k ← keyCodeOfString kS
      let d ← optStrField ps "description"
      .ok (.press_key ⟨k, d⟩)
  | "back" => do
      let d ← optStrField ps "description"
      .ok (.back ⟨d⟩)
  | "home" => do
      let d ← optStrField ps "description"
      .ok (.home ⟨d⟩)
  | "recent" => do
      let d ← optStrField ps "description"
      .ok (.recent ⟨d⟩)
  | "notification" => do
      let d ← optStrField ps "description"
      .ok (.notification ⟨d⟩)
  | "launch" => do
      let pkg ← reqStrField ps "package"
      let act ← optStrField ps "activity"
      let d ← optStrField ps "description"
      .ok (.launch ⟨pkg, act, d⟩)
  | "wait" => do
      let dur ← reqU32Field ps "duration_ms"
      let r ← optStrField ps "reason"
      .ok (.wait ⟨dur, r⟩)
  | "screenshot" => do
      let d ← optStrField ps "description"
      .ok (.screenshot ⟨d⟩)
  | "finish" => do
      let res ← reqStrField ps "result"
      let suc ← reqBoolField ps "success"
      .ok (.finish ⟨res, suc⟩)
  | other => .error ("未知的操作类型: " ++ other)

/-- The construction stage of `execute_parsed_action` (lines 83-95): shape
adapters followed by `from_json`. -/
def constructAction (parsed : ParsedAction) : Except String ActionEnum :=
  match convert_action_params parsed.action_type parsed.parameters with
  | .error e => .error ("参数转换失败: " ++ e)
  | .ok ps =>
      match ActionEnum.from_json parsed.action_type ps with
      | .error e => .error ("创建 Action 失败: " ++ e)
      | .ok a => .ok a

/-- `ActionHandler::execute_parsed_action` (lines 83-104): construct the
action, call `validate()` once, and — only when validation passes — run the
retry loop. The event trace records the `validate` call and every execution
attempt in order. -/
def execute_parsed_action (parsed : ParsedAction) (max_retries : Nat)
    (dev : Nat → ExecOutcome) : Except String ActionResult × List ExecEvent :=
  match constructAction parsed with
  | .error e => (.error e, [])
  | .ok a =>
      match a.validate with
      | .error err => (.error ("操作验证失败: " ++ err.message), [.validateCall])
      | .ok _ =>
          let run := execute_with_retry a max_retries dev
          (run.1, .validateCall :: run.2)

/-! ## Streaming session (`src/scrcpy/scrcpy.rs`) -/

/-- `ScrcpySessionTasks` (lines 30-45): the four supervised task handles,
the shared control write half, the connected-client set, and the cached
device metadata. Handles and resources are identified by allocation
numbers. -/
structure ScrcpySessionTasks where
  scrcpy_jar_handle : Option Nat
  socket_read_handle : Option Nat
  socket_write_handle : Option Nat
  broadcast_handle : Option Nat
  scrcpy_control_write : Option Nat
  connected_clients : List String
  device_meta : Option String
deriving DecidableEq, Repr

/-- `ScrcpySessionTasks::new`. -/
def ScrcpySessionTasks.mkNew : ScrcpySessionTasks :=
  ⟨none, none, none, none, none, [], none⟩

/-- Observable session events, in order of occurrence. -/
inductive SessEv where
  | clearWriteHalf
  | abortTask (handle : Nat)
  | sleepMs (ms : Nat)
  | freshChannel (id : Nat)
  | freshSubprocess (id : Nat)
  | freshTcpSocket (id : Nat)
  | newWriteHalf (id : Nat)
  | spawnTask (handle : Nat)
deriving DecidableEq, Repr

/-- `HashSet::insert` on the client set. -/
def ScrcpySessionTasks.add_client (s : ScrcpySessionTasks) (client_id : String) :
    ScrcpySessionTasks :=
  if client_id ∈ s.connected_clients then s
  else { s with connected_clients := s.connected_clients ++ [client_id] }

/-- `ScrcpySessionTasks::remove_client`: drop the id, report whether the set
became empty. -/
def ScrcpySessionTasks.remove_client (s : ScrcpySessionTasks) (client_id : String) :
    ScrcpySessionTasks × Bool :=
  let s2 := { s with
    connected_clients := s.connected_clients.filter (fun c => c ≠ client_id) }
  (s2, s2.connected_clients.isEmpty)

/-- `ScrcpySessionTasks::is_session_running` (line 143). -/
def ScrcpySessionTasks.is_session_running (s : ScrcpySessionTasks) : Bool :=
  s.scrcpy_jar_handle.isSome

/-- Abort events for whichever of the four handles are present, in source
order (jar, read, write, broadcast). -/
def abortEvents (s : ScrcpySessionTasks) : List SessEv :=
  (s.scrcpy_jar_handle.toList.map SessEv.abortTask) ++
  (s.socket_read_handle.toList.map SessEv.abortTask) ++
  (s.socket_write_handle.toList.map SessEv.abortTask) ++
  (s.broadcast_handle.toList.map SessEv.abortTask)

/-- `ScrcpySessionTasks::abort_tasks_only` (lines 98-125): clear the write
half, abort and drop all four handles, keep the client set and the cached
metadata. -/
def abort_tasks_only (s : ScrcpySessionTasks) : ScrcpySessionTasks × List SessEv :=
  ({ s with
      scrcpy_jar_handle := none
      socket_read_handle := none
      socket_write_handle := none
      broadcast_handle := none
      scrcpy_control_write := none },
   SessEv.clearWriteHalf :: abortEvents s)

/-- `ScrcpySessionTasks::abort_all` (lines 62-95): as `abort_tasks_only`,
then clear the client set and the metadata. -/
def abort_all (s : ScrcpySessionTasks) : ScrcpySessionTasks × List SessEv :=
  let r := abort_tasks_only s
  ({ r.1 with connected_clients := [], device_meta := none }, r.2)

/-- `start_scrcpy_session` (lines 381-694) at the resource level: a fresh
unbounded channel, a fresh mirror subprocess (pushed jar + `app_process`
shell), two fresh TCP client sockets, a fresh write half moved into the
mutex, and four freshly spawned task handles stored on the session.
Resources receive consecutive identifiers from the allocation counter
`ctr`; the returned counter bounds every identifier allocated so far. The
client set and cached metadata are untouched. -/
def start_scrcpy_session (s : ScrcpySessionTasks) (ctr : Nat) :
    ScrcpySessionTasks × Nat × List SessEv :=
  let channel := ctr
  let subprocess := ctr + 1
  let readSocket := ctr + 2
  let writeSocket := ctr + 3
  let writeHalf := ctr + 4
  let jarH := ctr + 5
  let readH := ctr + 6
  let writeH := ctr + 7
  let broadcastH := ctr + 8
  ({ s with
      scrcpy_jar_handle := some jarH
      socket_read_handle := some readH
      socket_write_handle := some writeH
      broadcast_handle := some broadcastH
      scrcpy_control_write := some writeHalf },
   ctr + 9,
   [ .freshChannel channel, .freshSubprocess subprocess,
     .freshTcpSocket readSocket, .freshTcpSocket writeSocket,
     .newWriteHalf writeHalf,
     .spawnTask jarH, .spawnTask readH, .spawnTask writeH, .spawnTask broadcastH ])

/-- `handle_client_connect` (lines 357-378): register the client; if a
session is already running, abort only the tasks, wait 200 ms, and restart;
otherwise start the first session. -/
def handle_client_connect (s : ScrcpySessionTasks) (socket_id : String) (ctr : Nat) :
    ScrcpySessionTasks × Nat × List SessEv :=
  let s1 := s.add_client socket_id
  if s1.is_session_running then
    let aborted := abort_tasks_only s1
    let started := start_scrcpy_session aborted.1 ctr
    (started.1, started.2.1, aborted.2 ++ [.sleepMs 200] ++ started.2.2)
  else
    let started := start_scrcpy_session s1 ctr
    (started.1, started.2.1, started.2.2)

/-- Every identifier held by the session is below the allocation counter. -/
def sessionIdsBelow (s : ScrcpySessionTasks) (ctr : Nat) : Prop :=
  (∀ h ∈ s.scrcpy_jar_handle, h < ctr) ∧
  (∀ h ∈ s.socket_read_handle, h < ctr) ∧
  (∀ h ∈ s.socket_write_handle, h < ctr) ∧
  (∀ h ∈ s.broadcast_handle, h < ctr) ∧
  (∀ h ∈ s.scrcpy_control_write, h < ctr)

instance (s : ScrcpySessionTasks) (ctr : Nat) : Decidable (sessionIdsBelow s ctr) :=
  inferInstanceAs (Decidable (_ ∧ _ ∧ _ ∧ _ ∧ _))

/-- Equality of `Except` results is decidable componentwise. -/
instance exceptDecEq {ε α : Type} [DecidableEq ε] [DecidableEq α] :
    DecidableEq (Except ε α) := fun x y =>
  match x, y with
  | .error e, .error f =>
      if h : e = f then .isTrue (congrArg Except.error h)
      else .isFalse (fun hc => h (Except.error.inj hc))
  | .error _, .ok _ => .isFalse (fun hc => Except.noConfusion hc)
  | .ok _, .error _ => .isFalse (fun hc => Except.noConfusion hc)
  | .ok a, .ok b =>
      if h : a = b then .isTrue (congrArg Except.ok h)
      else .isFalse (fun hc => h (Except.ok.inj hc))

/-! ## Concrete fixtures used by witnesses and counterexamples -/

/-- Unwrap an `Ok` pool, with a default for the (unreached) error case. -/
def okOr {α : Type} (x : Except AgentError α) (d : α) : α :=
  match x with
  | .ok a => a
  | .error _ => d

/-- A loop environment: default config, zero elapsed time, empty screenshots,
uniformly successful executor. -/
def envFix : LoopEnv :=
  { cfg := AgentConfig.default
    elapsed_ms := fun _ => 0
    screenshotAt := fun _ => ""
    execResult := fun a => ActionResult.mkSuccess a.description 5 }

/-- A model response that parses to zero actions. -/
def emptyResp : ModelResponse :=
  { content := "我不知道该做什么", actions := [], reasoning := none, tokens_used := 10 }

/-- Pool after registering `dev-1`. -/
def c4p1 : Pool := okOr (register_device [] 10 "dev-1" none 0) []

/-- ... then connecting it (session handle 100). -/
def c4p2 : Pool := okOr (connect_device c4p1 "dev-1" 100 1) []

/-- ... then attaching agent 7 through `get_agent`. -/
def c4p3 : Pool := okOr ((get_agent c4p2 "dev-1" 101 7 2).map Prod.fst) []

/-- ... then `mark_task_completed`. -/
def c4p4 : Pool := okOr (mark_task_completed c4p3 "dev-1" 3) []

/-- A device oracle whose every attempt succeeds. -/
def devAlwaysOk : Nat → ExecOutcome :=
  fun _ => .okResult (ActionResult.mkSuccess "done" 5)

/-- A device oracle that throws on the first attempt and succeeds after. -/
def devFailOnce : Nat → ExecOutcome :=
  fun attempt =>
    if attempt = 0 then .thrown "device busy"
    else .okResult (ActionResult.mkSuccess "done" 5)

/-- A tap arriving as parsed `do(action="tap", element=[100,200])` JSON. -/
def tapParsed : ParsedAction :=
  ⟨"tap", [("element", .arr [100, 200])], "element=[100,200]"⟩

/-- A running streaming session with two viewers. -/
def sessFix : ScrcpySessionTasks :=
  { scrcpy_jar_handle := some 0
    socket_read_handle := some 1
    socket_write_handle := some 2
    broadcast_handle := some 3
    scrcpy_control_write := some 4
    connected_clients := ["viewer-a", "viewer-b"]
    device_meta := some "test-device" }

/-! # Theorems

Helper lemmas first, then one theorem per claim (with its witness or
counterexample). -/

/-- The balanced scan reports a position no earlier than its start index. -/
theorem scanBalancedAux_le {cs : List Char} :
    ∀ {c : Int} {b : Bool} {idx j : Nat},
      scanBalancedAux cs c b idx = some j → idx ≤ j := by
  induction cs with
  | nil =>
      intro c b idx j h
      simp [scanBalancedAux] at h
  | cons hd tl ih =>
      intro c b idx j h
      simp only [scanBalancedAux] at h
      split_ifs at h with h1 h2 h3
      · exact Nat.le_of_succ_le (ih h)
      · cases h
        exact Nat.le_refl _
      · exact Nat.le_of_succ_le (ih h)
      · exact Nat.le_of_succ_le (ih h)

/-- A successful balanced scan never stops on its very first character
(the count starts at zero, so no `)` can close anything at index 0). -/
theorem scanBalanced_pos {cs : List Char} {j : Nat}
    (h : scanBalanced cs = some j) : 0 < j := by
  unfold scanBalanced at h
  match cs with
  | [] => simp [scanBalancedAux] at h
  | hd :: tl =>
      simp only [scanBalancedAux] at h
      split_ifs at h with h1 h2 h3
      · exact Nat.lt_of_lt_of_le Nat.zero_lt_one (scanBalancedAux_le h)
      · omega
      · exact Nat.lt_of_lt_of_le Nat.zero_lt_one (scanBalancedAux_le h)
      · exact Nat.lt_of_lt_of_le Nat.zero_lt_one (scanBalancedAux_le h)

/-- Coordinate conversion agrees with the amended formula whenever the
scaled coordinates stay inside `u32` (so the saturation is invisible). -/
theorem convert_eq_amended (phys ovr : Option (Nat × Nat)) (x y : Nat)
    (hb : OvrBounded ovr) (hx : x ≤ 1000000) (hy : y ≤ 1000000) :
    convert_to_physical_coords ⟨phys, ovr⟩ x y = amendedDelivered ovr x y := by
  match ovr with
  | none => rfl
  | some (ow, oh) =>
      obtain ⟨how, hoh⟩ := hb
      have h1 : x * ow / 1000 ≤ 4294967295 := by
        have hm : x * ow ≤ 1000000 * 1000000 := Nat.mul_le_mul hx how
        have := Nat.div_le_div_right (c := 1000) hm
        omega
      have h2 : y * oh / 1000 ≤ 4294967295 := by
        have hm : y * oh ≤ 1000000 * 1000000 := Nat.mul_le_mul hy hoh
        have := Nat.div_le_div_right (c := 1000) hm
        omega
      simp [convert_to_physical_coords, amendedDelivered, u32Sat,
        Nat.min_eq_left h1, Nat.min_eq_left h2]

/-- C1, counterexample. The claim predicts that with physical resolution
(1440, 3200) and override (1080, 2400), `Tap{x=540, y=1200}` delivers
approximately (720, 1600) = `round(logical * physical/override)`. The code
instead delivers (583, 2880) = `floor(logical * override/1000)`, far outside
the ±1 tolerance. -/
theorem c1_delivered_counterexample :
    tapCommandCoords ⟨some (1440, 3200), some (1080, 2400)⟩ 540 1200 = (583, 2880) ∧
    583 < 719 ∧ 1601 < 2880 := by
  decide

/-- C1, amended: for every input primitive (tap, swipe, long-press as a
same-endpoint swipe, double-tap as two taps), when an override resolution is
known the delivered coordinate is `floor(logical * override / 1000)`
componentwise — coordinates live on a fixed 1000×1000 grid and the physical
resolution plays no part (the formula `amendedDelivered` does not read it) —
and when no override is known the logical coordinate passes through
unchanged. -/
theorem c1_delivered_amended (phys ovr : Option (Nat × Nat)) (x y x2 y2 d : Nat)
    (hb : OvrBounded ovr) (hx : x ≤ 1000000) (hy : y ≤ 1000000)
    (hx2 : x2 ≤ 1000000) (hy2 : y2 ≤ 1000000) :
    tapCommandCoords ⟨phys, ovr⟩ x y = amendedDelivered ovr x y ∧
    swipeCommandCoords ⟨phys, ovr⟩ x y x2 y2 =
      (amendedDelivered ovr x y, amendedDelivered ovr x2 y2) ∧
    longPressCommandCoords ⟨phys, ovr⟩ x y d =
      (amendedDelivered ovr x y, amendedDelivered ovr x y) ∧
    doubleTapCommandCoords ⟨phys, ovr⟩ x y =
      (amendedDelivered ovr x y, amendedDelivered ovr x y) := by
  refine ⟨?_, ?_, ?_, ?_⟩
  · exact convert_eq_amended phys ovr x y hb hx hy
  · unfold swipeCommandCoords
    rw [convert_eq_amended phys ovr x y hb hx hy,
      convert_eq_amended phys ovr x2 y2 hb hx2 hy2]
  · unfold longPressCommandCoords swipeCommandCoords
    rw [convert_eq_amended phys ovr x y hb hx hy]
  · unfold doubleTapCommandCoords tapCommandCoords
    rw [convert_eq_amended phys ovr x y hb hx hy]

/-- Witness for `c1_delivered_amended` at the claim's own resolutions. -/
theorem c1_delivered_amended_witness :
    OvrBounded (some (1080, 2400)) ∧ 540 ≤ 1000000 ∧
    (tapCommandCoords ⟨some (1440, 3200), some (1080, 2400)⟩ 540 1200 =
        amendedDelivered (some (1080, 2400)) 540 1200 ∧
      swipeCommandCoords ⟨some (1440, 3200), some (1080, 2400)⟩ 540 1200 100 200 =
        (amendedDelivered (some (1080, 2400)) 540 1200,
         amendedDelivered (some (1080, 2400)) 100 200) ∧
      longPressCommandCoords ⟨some (1440, 3200), some (1080, 2400)⟩ 540 1200 300 =
        (amendedDelivered (some (1080, 2400)) 540 1200,
         amendedDelivered (some (1080, 2400)) 540 1200) ∧
      doubleTapCommandCoords ⟨some (1440, 3200), some (1080, 2400)⟩ 540 1200 =
        (amendedDelivered (some (1080, 2400)) 540 1200,
         amendedDelivered (some (1080, 2400)) 540 1200)) :=
  ⟨by decide, by decide,
    c1_delivered_amended (some (1440, 3200)) (some (1080, 2400)) 540 1200 100 200 300
      (by decide) (by decide) (by decide) (by decide) (by decide)⟩

/-- C2, counterexample. The input `finish(x finish(y)` contains an
occurrence of `finish(` (at index 9) that is closed by a balanced
parenthesis, so the claim requires exactly one `Finish` action; but the
parser bracket-matches only the *first* occurrence (index 0), whose
parenthesis is never closed, and falls through to `do(` scanning, returning
zero actions. -/
theorem c2_finish_counterexample :
    ("finish(".data).isPrefixOf (("finish(x finish(y)".data).drop 9) = true ∧
    scanBalanced (("finish(x finish(y)".data).drop (9 + 6)) = some 2 ∧
    parse_from_response_actions "finish(x finish(y)" = [] := by
  decide

/-- C2, amended: for every response whose *first* `finish(` occurrence is
closed by the balanced-parenthesis scan, the parser returns exactly one
action, of variant `Finish`, built from that occurrence — the literal
between the parentheses (possibly spanning multiple lines) is trimmed, a
`message=` tag is dropped, and surrounding double then single quotes are
stripped — and every `do(` in the response is ignored. -/
theorem c2_finish_priority_amended (content : String) (i j : Nat)
    (hf : findSub ("finish(".data) content.data = some i)
    (hs : scanBalanced (content.data.drop (i + 6)) = some j) :
    parse_from_response_actions content =
      [.finish ⟨finishMessageOf ((content.data.drop (i + 7)).take (j - 1)), true⟩] := by
  unfold parse_from_response_actions
  rw [hf]
  simp only [hs]
  rw [if_pos (scanBalanced_pos hs)]

/-- Witness for `c2_finish_priority_amended`: a response holding both a
balanced `finish(message="ok")` (first occurrence, at index 0, closing at
relative index 13) and a `do(...)` that is ignored. -/
theorem c2_finish_priority_amended_witness :
    findSub ("finish(".data) ("finish(message=\"ok\") do(action=\"Back\")").data = some 0 ∧
    scanBalanced (("finish(message=\"ok\") do(action=\"Back\")").data.drop (0 + 6)) =
      some 13 ∧
    parse_from_response_actions "finish(message=\"ok\") do(action=\"Back\")" =
      [.finish ⟨"ok", true⟩] :=
  ⟨by decide, by decide,
    (c2_finish_priority_amended "finish(message=\"ok\") do(action=\"Back\")" 0 13
        (by decide) (by decide)).trans (by decide)⟩

/-- C10, counterexample. `from_parsed` truncates the JSON keycode to `u32`
before the ten-way dispatch: keycode `4294967299 = 2^32 + 3` is not one of
the ten recognized values, yet it maps to `Home` (Android keycode 3), not to
`Back` (4) as the claim requires. -/
theorem c10_presskey_counterexample :
    (4294967299 ∉ ([3, 4, 66, 111, 67, 61, 24, 25, 26, 27] : List Nat)) ∧
    ActionEnum.from_parsed ⟨"press_key", [("keycode", .num 4294967299)], ""⟩ =
      some (.press_key ⟨.home, none⟩) ∧
    KeyCode.home.to_android_keycode = 3 := by
  decide

/-- C10, amended: building a `press_key` from a parsed
`do(action="press_key", keycode=n)`, the keycode is first truncated to 32
bits; every keycode whose truncation is not one of the ten recognized values
(3, 4, 66, 111, 67, 61, 24, 25, 26, 27) is silently mapped to the `Back`
key, so executing it presses Android keycode 4. -/
theorem c10_presskey_amended (n : Nat) (reasoning : String)
    (h : n % u32Mod ∉ ([3, 4, 66, 111, 67, 61, 24, 25, 26, 27] : List Nat)) :
    ActionEnum.from_parsed ⟨"press_key", [("keycode", .num n)], reasoning⟩ =
      some (.press_key ⟨.back, none⟩) ∧
    KeyCode.back.to_android_keycode = 4 := by
  refine ⟨?_, rfl⟩
  simp only [List.mem_cons, not_or] at h
  obtain ⟨e3, e4, e66, e111, e67, e61, e24, e25, e26, e27, -⟩ := h
  have hred : ActionEnum.from_parsed ⟨"press_key", [("keycode", .num n)], reasoning⟩ =
      some (.press_key ⟨pressKeyCodeOf (n % u32Mod), none⟩) := rfl
  rw [hred]
  unfold pressKeyCodeOf
  rw [if_neg e3, if_neg e4, if_neg e66, if_neg e111, if_neg e67, if_neg e61,
    if_neg e24, if_neg e25, if_neg e26, if_neg e27]

/-- Witness for `c10_presskey_amended` at keycode 99. -/
theorem c10_presskey_amended_witness :
    (99 % u32Mod ∉ ([3, 4, 66, 111, 67, 61, 24, 25, 26, 27] : List Nat)) ∧
    (ActionEnum.from_parsed ⟨"press_key", [("keycode", .num 99)], ""⟩ =
        some (.press_key ⟨.back, none⟩) ∧
      KeyCode.back.to_android_keycode = 4) :=
  ⟨by decide, c10_presskey_amended 99 "" (by decide)⟩

/-- C5: the code contradicts the claim. `pause()` from an active state does
return `Ok` and write `Paused{step}`, but nothing in `run_agent_loop` reads
that state: its guards consult only the step counter, the no-action counter
and the clock, and every iteration overwrites the state with `Analyzing`
before taking the screenshot. Starting an iteration with the shared state at
`Paused 5`, the loop still consumes the next model response (the message
list grows by the assistant/feedback pair and the step advances), ending in
`Analyzing` — so pausing does not stop the next iteration. `resume()` from
`Paused` likewise returns `Ok` while leaving the state `Paused` (its body is
a `TODO`), so it does not re-enter the loop. -/
theorem c5_pause_ignored_by_loop :
    pauseAgent (.analyzing 5) 5 = .ok (.paused 5) ∧
    (runLoop envFix [emptyResp] 0 ⟨.paused 5, 5, [], []⟩).state = .analyzing 6 ∧
    (runLoop envFix [emptyResp] 0 ⟨.paused 5, 5, [], []⟩).step = 6 ∧
    (runLoop envFix [emptyResp] 0 ⟨.paused 5, 5, [], []⟩).messages.length = 2 ∧
    resumeAgent (.paused 5) = .ok (.paused 5) := by
  decide

/-- C6: the code contradicts the claim. In single-stage mode the auxiliary
correction request is issued whenever an auxiliary model is configured — the
primary response `do(action="Back")` parses to one action, yet one auxiliary
request is still made (the parse outcome is consulted only *after* the
correction). Without an auxiliary model no request is made, and the
three-stage path does gate its correction on an empty parse, issuing zero
requests for the same parseable content. -/
theorem c6_auxiliary_gating :
    parse_from_response_actions "do(action=\"Back\")" = [.back ⟨none⟩] ∧
    (query_single_stage ⟨"autoglm-phone", some "glm-4", false⟩ id
        "do(action=\"Back\")").auxiliary_requests = 1 ∧
    (query_single_stage ⟨"autoglm-phone", none, false⟩ id
        "do(action=\"Back\")").auxiliary_requests = 0 ∧
    (three_stage_correction ⟨"autoglm-phone", some "glm-4", false⟩ id
        "do(action=\"Back\")").2 = 0 := by
  decide

/-- One loop iteration on an empty-action response: with the three guards
passing, the loop records the assistant reply and the fixed feedback
message, bumps the no-action counter and the step, and continues. -/
theorem runLoop_empty_step (env : LoopEnv) (r : ModelResponse)
    (rest : List ModelResponse) (n : Nat) (st : LoopRt)
    (hr : r.actions = [])
    (hmax : st.step < env.cfg.max_steps) (hn : n < 3)
    (ht : env.elapsed_ms st.step ≤ env.cfg.max_execution_time * 1000) :
    runLoop env (r :: rest) n st =
      runLoop env rest (n + 1)
        ⟨.analyzing st.step, st.step + 1, st.history,
          st.messages ++ [⟨.assistant, r.content⟩, ⟨.user, noActionFeedbackMsg⟩]⟩ := by
  rw [runLoop.eq_def]
  rw [if_neg (by omega), if_neg (by omega), if_neg (by omega)]
  simp only [hr, List.isEmpty_nil, if_pos]

/-- When the no-action counter has reached 3 (and the step guard passes),
the loop fails with the consecutive-no-action error at the current step. -/
theorem runLoop_noaction_guard (env : LoopEnv) (resps : List ModelResponse)
    (n : Nat) (st : LoopRt)
    (hmax : st.step < env.cfg.max_steps) (hn : 3 ≤ n) :
    runLoop env resps n st =
      { st with state := .failed st.step (consecutiveNoActionError n) } := by
  rw [runLoop.eq_def]
  rw [if_neg (by omega), if_pos (by omega)]

/-- C3: three consecutive model responses that parse to zero actions end the
run in `Failed` at step 3 with the consecutive-no-action guard message
`连续 3 次未返回有效操作，停止执行`, and the execution history holds zero
entries — provided the configured step bound exceeds 3 and the run has not
timed out. -/
theorem c3_three_empty_responses_fail (env : LoopEnv) (sp task : String)
    (r1 r2 r3 : ModelResponse)
    (h1 : r1.actions = []) (h2 : r2.actions = []) (h3 : r3.actions = [])
    (hmax : 3 < env.cfg.max_steps)
    (htime : ∀ k, k ≤ 3 → env.elapsed_ms k ≤ env.cfg.max_execution_time * 1000) :
    (run_agent_loop env sp task [r1, r2, r3]).state =
      .failed 3 (consecutiveNoActionError 3) ∧
    (run_agent_loop env sp task [r1, r2, r3]).history = [] := by
  have e1 := runLoop_empty_step env r1 [r2, r3] 0
    ⟨.initializing, 0, [], [⟨.system, sp⟩, ⟨.user, initialUserMessage task⟩]⟩
    h1 (by show 0 < env.cfg.max_steps; omega) (by omega)
    (by show env.elapsed_ms 0 ≤ _; exact htime 0 (by omega))
  have e2 := runLoop_empty_step env r2 [r3] 1
    ⟨.analyzing 0, 1, [],
      [⟨.system, sp⟩, ⟨.user, initialUserMessage task⟩] ++
        [⟨.assistant, r1.content⟩, ⟨.user, noActionFeedbackMsg⟩]⟩
    h2 (by show 1 < env.cfg.max_steps; omega) (by omega)
    (by show env.elapsed_ms 1 ≤ _; exact htime 1 (by omega))
  have e3 := runLoop_empty_step env r3 [] 2
    ⟨.analyzing 1, 2, [],
      ([⟨.system, sp⟩, ⟨.user, initialUserMessage task⟩] ++
        [⟨.assistant, r1.content⟩, ⟨.user, noActionFeedbackMsg⟩]) ++
        [⟨.assistant, r2.content⟩, ⟨.user, noActionFeedbackMsg⟩]⟩
    h3 (by show 2 < env.cfg.max_steps; omega) (by omega)
    (by show env.elapsed_ms 2 ≤ _; exact htime 2 (by omega))
  have e4 := runLoop_noaction_guard env [] 3
    ⟨.analyzing 2, 3, [],
      (([⟨.system, sp⟩, ⟨.user, initialUserMessage task⟩] ++
        [⟨.assistant, r1.content⟩, ⟨.user, noActionFeedbackMsg⟩]) ++
        [⟨.assistant, r2.content⟩, ⟨.user, noActionFeedbackMsg⟩]) ++
        [⟨.assistant, r3.content⟩, ⟨.user, noActionFeedbackMsg⟩]⟩
    (by show 3 < env.cfg.max_steps; omega) (by omega)
  unfold run_agent_loop
  rw [e1, e2, e3, e4]
  exact ⟨rfl, rfl⟩

/-- Witness for `c3_three_empty_responses_fail` in the fixture environment. -/
theorem c3_three_empty_responses_fail_witness :
    emptyResp.actions = [] ∧ 3 < envFix.cfg.max_steps ∧
    ((run_agent_loop envFix "sys" "打开微信" [emptyResp, emptyResp, emptyResp]).state =
        .failed 3 (consecutiveNoActionError 3) ∧
      (run_agent_loop envFix "sys" "打开微信" [emptyResp, emptyResp, emptyResp]).history = []) :=
  ⟨rfl, by decide,
    c3_three_empty_responses_fail envFix "sys" "打开微信" emptyResp emptyResp emptyResp
      rfl rfl rfl (by decide) (fun _ _ => Nat.zero_le _)⟩

/-- The retry loop emits only `executeAttempt` events, never a `validate`
call. -/
theorem validateCall_not_mem_retry (dev : Nat → ExecOutcome) :
    ∀ (remaining attempt : Nat) (lastErr : Option String),
      ExecEvent.validateCall ∉ (executeRetryAux dev remaining attempt lastErr).2 := by
  intro remaining
  induction remaining with
  | zero =>
      intro attempt lastErr
      simp [executeRetryAux]
  | succ k ih =>
      intro attempt lastErr
      simp only [executeRetryAux]
      match hdev : dev attempt with
      | .okResult r =>
          by_cases hs : r.success
          · simp [hs]
          · simp only [hs, Bool.false_eq_true, if_false, List.mem_cons]
            rintro (hc | hc)
            · exact ExecEvent.noConfusion hc
            · exact ih (attempt + 1) (some r.message) hc
      | .thrown m =>
          simp only [List.mem_cons]
          rintro (hc | hc)
          · exact ExecEvent.noConfusion hc
          · exact ih (attempt + 1) (some m) hc

/-- As long as attempts remain, the retry loop performs the attempt at the
current index. -/
theorem executeRetryAux_attempt_mem (dev : Nat → ExecOutcome)
    (remaining attempt : Nat) (lastErr : Option String) (hrem : 0 < remaining) :
    ExecEvent.executeAttempt attempt ∈ (executeRetryAux dev remaining attempt lastErr).2 := by
  match remaining, hrem with
  | k + 1, _ =>
      simp only [executeRetryAux]
      match hdev : dev attempt with
      | .okResult r =>
          by_cases hs : r.success
          · simp [hs]
          · simp [hs]
      | .thrown m => simp

/-- C7, counterexample. `Tap{x=20000}` fails validation (`OutOfBounds`), so
by the claim `execute_with_retry` must call `validate()` once and return the
error with zero execution attempts. Instead the function performs no
validation at all: with a device that succeeds immediately it executes the
invalid action once and returns `Ok` — the event trace holds one execution
attempt and no validate call. -/
theorem c7_retry_counterexample :
    (ActionEnum.tap ⟨20000, 0, none⟩).validate = .error (.outOfBounds 20000 0) ∧
    execute_with_retry (.tap ⟨20000, 0, none⟩) 3 devAlwaysOk =
      (.ok (ActionResult.mkSuccess "done" 5), [.executeAttempt 0]) := by
  decide

/-- C7, amended: validation lives in `execute_parsed_action`, not in
`execute_with_retry`. For every parsed action whose construction succeeds,
`execute_parsed_action` calls `validate()` exactly once, as its first
observable step; if validation fails it returns the error immediately with
zero execution attempts and no retries; if validation passes it defers to
`execute_with_retry`, which retries only execution failures: a first attempt
returning a successful result is never retried, while a thrown device error
is followed by attempt 1 whenever retries remain. -/
theorem c7_validate_once_amended (parsed : ParsedAction) (max_retries : Nat)
    (dev : Nat → ExecOutcome) (a : ActionEnum)
    (hc : constructAction parsed = .ok a) :
    ((execute_parsed_action parsed max_retries dev).2.count .validateCall = 1 ∧
      (execute_parsed_action parsed max_retries dev).2.head? = some .validateCall) ∧
    (∀ err, a.validate = .error err →
      execute_parsed_action parsed max_retries dev =
        (.error ("操作验证失败: " ++ err.message), [.validateCall])) ∧
    (a.validate = .ok () →
      execute_parsed_action parsed max_retries dev =
        ((execute_with_retry a max_retries dev).1,
          .validateCall :: (execute_with_retry a max_retries dev).2)) ∧
    (∀ r, dev 0 = .okResult r → r.success = true →
      execute_with_retry a max_retries dev = (.ok r, [.executeAttempt 0])) ∧
    (∀ m, dev 0 = .thrown m → 1 ≤ max_retries →
      .executeAttempt 1 ∈ (execute_with_retry a max_retries dev).2) := by
  refine ⟨?_, ?_, ?_, ?_, ?_⟩
  · simp only [execute_parsed_action, hc]
    cases hv : a.validate with
    | error err => simp
    | ok u =>
        have hnot := validateCall_not_mem_retry dev (max_retries + 1) 0 none
        refine ⟨?_, rfl⟩
        show List.count ExecEvent.validateCall
          (ExecEvent.validateCall :: (executeRetryAux dev (max_retries + 1) 0 none).2) = 1
        rw [List.count_cons_self, List.count_eq_zero_of_not_mem hnot]
  · intro err hv
    simp only [execute_parsed_action, hc, hv]
  · intro hv
    simp only [execute_parsed_action, hc, hv, execute_with_retry]
  · intro r hdev hs
    unfold execute_with_retry
    simp only [executeRetryAux, hdev, hs, if_true]
  · intro m hdev h1
    unfold execute_with_retry
    simp only [executeRetryAux, hdev, List.mem_cons]
    exact Or.inr (executeRetryAux_attempt_mem dev max_retries 1 (some m) (by omega))

/-- Witness for `c7_validate_once_amended`: the fixture tap constructed from
`do(action="tap", element=[100,200])`, against a device that throws once. -/
theorem c7_validate_once_amended_witness :
    constructAction tapParsed = .ok (.tap ⟨100, 200, none⟩) ∧
    (execute_parsed_action tapParsed 3 devFailOnce).2.count .validateCall = 1 ∧
    (execute_parsed_action tapParsed 3 devFailOnce).2.head? = some .validateCall ∧
    .executeAttempt 1 ∈ (execute_with_retry (.tap ⟨100, 200, none⟩) 3 devFailOnce).2 :=
  have h := c7_validate_once_amended tapParsed 3 devFailOnce (.tap ⟨100, 200, none⟩)
    (by decide)
  ⟨by decide, h.1.1, h.1.2, h.2.2.2.2 "device busy" (by decide) (by decide)⟩

/-- C8: a client connecting to a device whose streaming session is already
running triggers exactly the restart protocol: the write half is cleared and
the four supervising tasks (jar/server, read, write, broadcast) are aborted,
a 200 ms wait follows, and only then is the session restarted with a fresh
channel, fresh mirror subprocess, two fresh TCP sockets, a fresh write half
and four freshly spawned tasks — every new identifier is distinct from every
old one. The connected-client set after the restart is exactly the set after
adding the connecting client: the restart itself leaves it unchanged. -/
theorem c8_restart_preserves_clients (s : ScrcpySessionTasks) (sid : String)
    (ctr j r w b wh : Nat)
    (hj : s.scrcpy_jar_handle = some j) (hr : s.socket_read_handle = some r)
    (hw : s.socket_write_handle = some w) (hb : s.broadcast_handle = some b)
    (hwh : s.scrcpy_control_write = some wh)
    (hlt : sessionIdsBelow s ctr) :
    handle_client_connect s sid ctr =
      ({ scrcpy_jar_handle := some (ctr + 5)
         socket_read_handle := some (ctr + 6)
         socket_write_handle := some (ctr + 7)
         broadcast_handle := some (ctr + 8)
         scrcpy_control_write := some (ctr + 4)
         connected_clients := (s.add_client sid).connected_clients
         device_meta := s.device_meta },
       ctr + 9,
       [.clearWriteHalf, .abortTask j, .abortTask r, .abortTask w, .abortTask b,
        .sleepMs 200,
        .freshChannel ctr, .freshSubprocess (ctr + 1), .freshTcpSocket (ctr + 2),
        .freshTcpSocket (ctr + 3), .newWriteHalf (ctr + 4),
        .spawnTask (ctr + 5), .spawnTask (ctr + 6), .spawnTask (ctr + 7),
        .spawnTask (ctr + 8)]) ∧
    (ctr + 5 ≠ j ∧ ctr + 6 ≠ r ∧ ctr + 7 ≠ w ∧ ctr + 8 ≠ b ∧ ctr + 4 ≠ wh) := by
  obtain ⟨hltj, hltr, hltw, hltb, hltwh⟩ := hlt
  have hjlt : j < ctr := hltj j (by simp [hj])
  have hrlt : r < ctr := hltr r (by simp [hr])
  have hwlt : w < ctr := hltw w (by simp [hw])
  have hblt : b < ctr := hltb b (by simp [hb])
  have hwhlt : wh < ctr := hltwh wh (by simp [hwh])
  constructor
  · have hclients : ∀ fld : ScrcpySessionTasks,
        (fld.add_client sid).scrcpy_jar_handle = fld.scrcpy_jar_handle ∧
        (fld.add_client sid).socket_read_handle = fld.socket_read_handle ∧
        (fld.add_client sid).socket_write_handle = fld.socket_write_handle ∧
        (fld.add_client sid).broadcast_handle = fld.broadcast_handle ∧
        (fld.add_client sid).scrcpy_control_write = fld.scrcpy_control_write ∧
        (fld.add_client sid).device_meta = fld.device_meta := by
      intro fld
      unfold ScrcpySessionTasks.add_client
      by_cases hmem : sid ∈ fld.connected_clients <;> simp [hmem]
    obtain ⟨f1, f2, f3, f4, f5, f6⟩ := hclients s
    unfold handle_client_connect
    rw [if_pos (by simp [ScrcpySessionTasks.is_session_running, f1, hj])]
    unfold abort_tasks_only start_scrcpy_session abortEvents
    simp [f1, f2, f3, f4, f5, f6, hj, hr, hw, hb, hwh]
  · omega

/-- Witness for `c8_restart_preserves_clients` on the running two-viewer
fixture session. -/
theorem c8_restart_preserves_clients_witness :
    sessFix.scrcpy_jar_handle = some 0 ∧ sessionIdsBelow sessFix 10 ∧
    handle_client_connect sessFix "viewer-c" 10 =
      ({ scrcpy_jar_handle := some 15
         socket_read_handle := some 16
         socket_write_handle := some 17
         broadcast_handle := some 18
         scrcpy_control_write := some 14
         connected_clients := (sessFix.add_client "viewer-c").connected_clients
         device_meta := sessFix.device_meta },
       19,
       [.clearWriteHalf, .abortTask 0, .abortTask 1, .abortTask 2, .abortTask 3,
        .sleepMs 200,
        .freshChannel 10, .freshSubprocess 11, .freshTcpSocket 12,
        .freshTcpSocket 13, .newWriteHalf 14,
        .spawnTask 15, .spawnTask 16, .spawnTask 17, .spawnTask 18]) :=
  ⟨rfl, by decide,
    (c8_restart_preserves_clients sessFix "viewer-c" 10 0 1 2 3 4
      rfl rfl rfl rfl rfl (by decide)).1⟩

/-- A successful lookup pins the found pair. -/
theorem poolFind_mem {p : Pool} {s : String} {e : DeviceEntry}
    (h : poolFind p s = some e) : (s, e) ∈ p := by
  unfold poolFind at h
  obtain ⟨q, hq, hq2⟩ := Option.map_eq_some'.1 h
  have hmem := List.mem_of_find?_eq_some hq
  have hpred := List.find?_some hq
  have hq1 : q.1 = s := by simpa using hpred
  have : q = (s, e) := by
    cases q
    simp only [Prod.mk.injEq]
    exact ⟨hq1, hq2⟩
  rw [← this]
  exact hmem

/-- Updating the entry stored under a present key makes lookup return the
new entry. -/
theorem poolFind_poolSet_self {p : Pool} {s : String} {e0 e : DeviceEntry}
    (hf : poolFind p s = some e0) :
    poolFind (poolSet p s e) s = some e := by
  induction p with
  | nil => simp [poolFind] at hf
  | cons pr rest ih =>
      by_cases h : pr.1 = s
      · simp [poolFind, poolSet, List.find?, h]
      · have hf2 : poolFind rest s = some e0 := by
          simpa [poolFind, List.find?, h] using hf
        simpa [poolFind, poolSet, List.find?, h] using ih hf2

/-- Membership in an updated pool: the new pair or an untouched old pair. -/
theorem mem_poolSet {p : Pool} {s : String} {e : DeviceEntry}
    {pr : String × DeviceEntry} (h : pr ∈ poolSet p s e) :
    pr = (s, e) ∨ pr ∈ p := by
  unfold poolSet at h
  obtain ⟨q, hq, hqe⟩ := List.mem_map.1 h
  by_cases hc : q.1 = s
  · left
    rw [← hqe, if_pos hc]
  · right
    rw [← hqe, if_neg hc]
    exact hq

/-- Updating one entry preserves `poolInvFull` when the new entry satisfies
it. -/
theorem poolInvFull_poolSet {p : Pool} (hp : poolInvFull p) {s : String}
    {e : DeviceEntry} (he : e.agent.isSome → e.status = .busy ∧ e.scrcpy.isSome) :
    poolInvFull (poolSet p s e) := by
  intro pr hpr ha
  rcases mem_poolSet hpr with h | h
  · rw [h]
    rw [h] at ha
    exact he ha
  · exact hp pr h ha

/-- `connect_device` preserves `poolInvFull`: an already-connected entry is
untouched, and a connecting entry cannot hold an agent (an agent implies a
session, which implies the early return). -/
theorem connect_device_preserves_invFull {p : Pool} (hp : poolInvFull p)
    {serial : String} {sess now : Nat} {p2 : Pool}
    (h : connect_device p serial sess now = .ok p2) : poolInvFull p2 := by
  unfold connect_device at h
  split at h
  · exact Except.noConfusion h
  next e hf =>
    split at h
    next hscr =>
      cases h
      exact hp
    next hscr =>
      cases h
      refine poolInvFull_poolSet hp ?_
      intro ha
      have hae : e.agent.isSome := by
        simpa [connectPending, DeviceEntry.set_status] using ha
      exact absurd (hp (serial, e) (poolFind_mem hf) hae).2 hscr

/-- C9: `connect_device` is idempotent. For a registered entry without a
session, the first call passes through the transient `Connecting` status,
attaches the freshly created session handle, lands on `Connected`, and
returns success; a second call on the resulting pool returns success while
mutating nothing — the pool (and hence the entry and its session handle) is
returned exactly as it was. -/
theorem c9_connect_idempotent (p : Pool) (serial : String)
    (sess sess2 now now2 : Nat) (e : DeviceEntry)
    (hf : poolFind p serial = some e)
    (hs : e.scrcpy = none) (_hst : e.status = .registered) :
    (connectPending e now).status = .connecting ∧
    ∃ p2, connect_device p serial sess now = .ok p2 ∧
      (poolFind p2 serial).map DeviceEntry.status = some .connected ∧
      (poolFind p2 serial).map DeviceEntry.scrcpy = some (some sess) ∧
      connect_device p2 serial sess2 now2 = .ok p2 := by
  refine ⟨rfl, ?_⟩
  have hnotsome : ¬ e.scrcpy.isSome := by simp [hs]
  refine ⟨poolSet p serial
    (({ connectPending e now with scrcpy := some sess } : DeviceEntry).set_status
      .connected now), ?_, ?_, ?_, ?_⟩
  · simp [connect_device, hf, hs]
  · rw [poolFind_poolSet_self hf]
    rfl
  · rw [poolFind_poolSet_self hf]
    rfl
  · simp [connect_device, poolFind_poolSet_self hf, DeviceEntry.set_status]

/-- Witness for `c9_connect_idempotent` on the freshly registered fixture
pool. -/
theorem c9_connect_idempotent_witness :
    poolFind c4p1 "dev-1" = some (DeviceEntry.mkNew "dev-1" none 0) ∧
    (DeviceEntry.mkNew "dev-1" none 0).scrcpy = none ∧
    ((connectPending (DeviceEntry.mkNew "dev-1" none 0) 1).status = .connecting ∧
      ∃ p2, connect_device c4p1 "dev-1" 100 1 = .ok p2 ∧
        (poolFind p2 "dev-1").map DeviceEntry.status = some .connected ∧
        (poolFind p2 "dev-1").map DeviceEntry.scrcpy = some (some 100) ∧
        connect_device p2 "dev-1" 101 2 = .ok p2) :=
  ⟨by decide, rfl,
    c9_connect_idempotent c4p1 "dev-1" 100 101 1 2 (DeviceEntry.mkNew "dev-1" none 0)
      (by decide) rfl rfl⟩

/-- C4, counterexample. After register → connect → `get_agent` (which
attaches agent 7 and flips the entry to `Busy`), a single
`mark_task_completed` leaves the entry with `agent = Some 7` but
`status = Connected`: the claimed invariant is violated by a pool
operation the claim explicitly covers. Additionally, `release_agent` on an
entry that holds no agent returns `Ok` while leaving the status
`Registered`, outside the claimed `{Connected, Disconnected}`. -/
theorem c4_invariant_counterexample :
    register_device [] 10 "dev-1" none 0 = .ok c4p1 ∧
    connect_device c4p1 "dev-1" 100 1 = .ok c4p2 ∧
    get_agent c4p2 "dev-1" 101 7 2 = .ok (c4p3, 7) ∧
    poolInv c4p3 ∧
    mark_task_completed c4p3 "dev-1" 3 = .ok c4p4 ∧
    (poolFind c4p4 "dev-1").map DeviceEntry.agent = some (some 7) ∧
    (poolFind c4p4 "dev-1").map DeviceEntry.status = some .connected ∧
    ¬ poolInv c4p4 ∧
    release_agent c4p1 "dev-1" 4 = .ok c4p1 ∧
    (poolFind c4p1 "dev-1").map DeviceEntry.status = some .registered := by
  decide

/-- C4, amended: the invariant — every entry whose agent handle is `Some`
has status `Busy` (strengthened with the companion fact that such an entry
also holds its streaming session) — is preserved by `register_device`,
`unregister_device`, `connect_device`, `disconnect_device`, `get_agent`,
`update_task_status`, `release_agent` and `cleanup_idle_devices`; it is
*not* preserved by `mark_task_completed` / `mark_task_failed`, which reset
the status to `Connected` while leaving the agent handle in place. When
`release_agent` returns `Ok` on an entry that held an agent, that entry's
agent handle is `None` and its status is `Connected`. -/
theorem c4_invariant_amended (p : Pool) (hp : poolInvFull p)
    (max_connections sess freshAgent now threshold : Nat)
    (serial task_id task : String) (name : Option String) :
    poolInv p ∧
    (∀ p2, register_device p max_connections serial name now = .ok p2 → poolInvFull p2) ∧
    (∀ p2, unregister_device p serial = .ok p2 → poolInvFull p2) ∧
    (∀ p2, connect_device p serial sess now = .ok p2 → poolInvFull p2) ∧
    (∀ p2, disconnect_device p serial now = .ok p2 → poolInvFull p2) ∧
    (∀ p2 a, get_agent p serial sess freshAgent now = .ok (p2, a) → poolInvFull p2) ∧
    (∀ p2, update_task_status p serial task_id task now = .ok p2 → poolInvFull p2) ∧
    (∀ p2, release_agent p serial now = .ok p2 → poolInvFull p2) ∧
    poolInvFull (cleanup_idle_devices p threshold now) ∧
    (∀ e a p2, poolFind p serial = some e → e.agent = some a →
      release_agent p serial now = .ok p2 →
      (poolFind p2 serial).map DeviceEntry.agent = some none ∧
      (poolFind p2 serial).map DeviceEntry.status = some .connected) := by
  refine ⟨?_, ?_, ?_, ?_, ?_, ?_, ?_, ?_, ?_, ?_⟩
  · intro pr hpr ha
    exact (hp pr hpr ha).1
  · intro p2 h
    unfold register_device at h
    split at h
    · exact Except.noConfusion h
    split at h
    · exact Except.noConfusion h
    cases h
    intro pr hpr ha
    rcases List.mem_append.1 hpr with hm | hm
    · exact hp pr hm ha
    · have : pr = (serial, DeviceEntry.mkNew serial name now) := by simpa using hm
      rw [this] at ha
      exact absurd ha (by simp [DeviceEntry.mkNew])
  · intro p2 h
    unfold unregister_device at h
    split at h
    · cases h
      intro pr hpr ha
      exact hp pr (List.mem_of_mem_filter hpr) ha
    · exact Except.noConfusion h
  · intro p2 h
    exact connect_device_preserves_invFull hp h
  · intro p2 h
    unfold disconnect_device at h
    split at h
    · exact Except.noConfusion h
    next e hf =>
      cases h
      refine poolInvFull_poolSet hp ?_
      intro ha
      exact absurd ha (by simp [DeviceEntry.set_status])
  · intro p2 a h
    unfold get_agent at h
    split at h
    · exact Except.noConfusion h
    next p1 hconn =>
      have hp1 : poolInvFull p1 := connect_device_preserves_invFull hp hconn
      split at h
      · exact Except.noConfusion h
      next e hf =>
        split at h
        next a0 hagent =>
          cases h
          refine poolInvFull_poolSet hp1 ?_
          intro ha
          have hae : e.agent.isSome := by
            simpa [DeviceEntry.touch] using ha
          have := hp1 (serial, e) (poolFind_mem hf) hae
          simpa [DeviceEntry.touch] using this
        next hagent =>
          split at h
          · exact Except.noConfusion h
          next hscr =>
            cases h
            refine poolInvFull_poolSet hp1 ?_
            intro _
            refine ⟨by simp [DeviceEntry.set_status], ?_⟩
            simp only [DeviceEntry.set_status]
            simpa using Option.ne_none_iff_isSome.1 (by simpa using hscr)
  · intro p2 h
    unfold update_task_status at h
    split at h
    · exact Except.noConfusion h
    next e hf =>
      cases h
      refine poolInvFull_poolSet hp ?_
      intro ha
      have hae : e.agent.isSome := by
        simpa [DeviceEntry.start_task] using ha
      refine ⟨by simp [DeviceEntry.start_task], ?_⟩
      simp only [DeviceEntry.start_task]
      exact (hp (serial, e) (poolFind_mem hf) hae).2
  · intro p2 h
    unfold release_agent at h
    split at h
    · exact Except.noConfusion h
    next e hf =>
      split at h
      next a0 hagent =>
        cases h
        refine poolInvFull_poolSet hp ?_
        intro ha
        exact absurd ha (by simp [DeviceEntry.set_status, DeviceEntry.complete_task])
      next hagent =>
        cases h
        exact hp
  · intro pr hpr ha
    unfold cleanup_idle_devices at hpr
    obtain ⟨q, hq, hqe⟩ := List.mem_map.1 hpr
    by_cases hidle : q.2.is_idle threshold now
    · have hqagent : q.2.agent.isNone := by
        have := hidle
        unfold DeviceEntry.is_idle at this
        simp only [Bool.and_eq_true, decide_eq_true_eq] at this
        exact this.2.1
      by_cases h2 : q.2.idle_seconds now > threshold * 2
      · rw [← hqe] at ha
        simp only [hidle, if_true, h2, if_true] at ha
        exact absurd (by simpa [DeviceEntry.set_status] using ha)
          (by simp [Option.isNone_iff_eq_none.1 hqagent])
      · rw [← hqe] at ha ⊢
        simp only [hidle, if_true, h2, if_false] at ha ⊢
        exact hp q hq ha
    · rw [← hqe] at ha ⊢
      simp only [hidle, if_false] at ha ⊢
      exact hp q hq ha
  · intro e a p2 hf hagent h
    unfold release_agent at h
    rw [hf] at h
    simp only [hagent] at h
    cases h
    rw [poolFind_poolSet_self hf]
    exact ⟨rfl, rfl⟩

/-- Witness for `c4_invariant_amended` on the busy fixture pool `c4p3`
(agent 7 attached, status `Busy`). -/
theorem c4_invariant_amended_witness :
    poolInvFull c4p3 ∧
    (poolInv c4p3 ∧
      (∀ p2, register_device c4p3 10 "dev-2" none 5 = .ok p2 → poolInvFull p2) ∧
      (∀ p2, unregister_device c4p3 "dev-2" = .ok p2 → poolInvFull p2) ∧
      (∀ p2, connect_device c4p3 "dev-2" 102 5 = .ok p2 → poolInvFull p2) ∧
      (∀ p2, disconnect_device c4p3 "dev-2" 5 = .ok p2 → poolInvFull p2) ∧
      (∀ p2 a, get_agent c4p3 "dev-2" 102 8 5 = .ok (p2, a) → poolInvFull p2) ∧
      (∀ p2, update_task_status c4p3 "dev-2" "t1" "打开微信" 5 = .ok p2 → poolInvFull p2) ∧
      (∀ p2, release_agent c4p3 "dev-2" 5 = .ok p2 → poolInvFull p2) ∧
      poolInvFull (cleanup_idle_devices c4p3 300 5) ∧
      (∀ e a p2, poolFind c4p3 "dev-2" = some e → e.agent = some a →
        release_agent c4p3 "dev-2" 5 = .ok p2 →
        (poolFind p2 "dev-2").map DeviceEntry.agent = some none ∧
        (poolFind p2 "dev-2").map DeviceEntry.status = some .connected)) :=
  ⟨by decide, c4_invariant_amended c4p3 (by decide) 10 102 8 5 300 "dev-2" "t1" "打开微信" none⟩

end Scrs
